import Mathlib

/-!
Shallow embedding of the kiosk configuration and inventory synchronization
backend of the wecandoeat repository (FastAPI routers and SQLAlchemy
services under app/back). Each definition mirrors one Python function:
database rows become Lean structures, ORM mutation plus commit becomes an
explicit state transition, `HTTPException` becomes `Except HttpErr`, and
request randomness (API keys, pairing codes) and wall-clock time are passed
in as arguments. Python integers are unbounded, so they are modelled by
`Int`; nullable columns by `Option`.
-/

namespace WCD

/-- HTTP-level failure, mirroring `HTTPException(status_code, detail)`. -/
structure HttpErr where
  status : Nat
  detail : String
deriving Repr, DecidableEq

/-- Decidable equality on request outcomes, so witnesses can be settled by
`decide`. -/
instance {ε α : Type} [DecidableEq ε] [DecidableEq α] : DecidableEq (Except ε α)
  | .ok a, .ok b =>
      if h : a = b then .isTrue (h ▸ rfl)
      else .isFalse fun he => h (Except.ok.inj he)
  | .ok _, .error _ => .isFalse fun he => Except.noConfusion he
  | .error _, .ok _ => .isFalse fun he => Except.noConfusion he
  | .error a, .error b =>
      if h : a = b then .isTrue (h ▸ rfl)
      else .isFalse fun he => h (Except.error.inj he)

/-- Python truthiness fallback `v or d` on an `int` value: `0` is falsy,
every other integer is truthy. -/
def intOr (v d : Int) : Int := if v = 0 then d else v

/-- Python truthiness `not s` of an `Optional[str]`: true when the value is
`None` or the empty string. -/
def strFalsy : Option String → Bool
  | none => true
  | some s => s = ""

/- ===================== data model (app/back/models) ===================== -/

/-- Row of the `kiosks` table (models/kiosk.py). Timestamps are modelled as
integer ticks. -/
structure Kiosk where
  id : Nat
  storeId : Nat
  code : String
  name : String
  kioskPassword : String
  apiKey : Option String := none
  deviceUuid : Option String := none
  isActive : Bool := true
  lastHeartbeatAt : Option Int := none
  lastIp : Option String := none
  appVersion : Option String := none
  pairCode4 : Option String := none
  configVersion : Int := 1
  updatedAt : Int := 0
deriving Repr, DecidableEq

/-- Row of the `vending_slots` table (models/vending.py). -/
structure VendingSlot where
  id : Nat
  kioskId : Nat
  row : Int
  col : Int
  boardCode : String
  label : Option String := none
  maxCapacity : Int := 0
  isEnabled : Bool := true
  updatedAt : Int := 0
deriving Repr, DecidableEq

/-- Row of the `vending_slot_products` table: the binding of a slot to a
per-kiosk product snapshot, carrying the stock counters. The service and
router code reads and writes the `kiosk_product_id` column. -/
structure VendingSlotProduct where
  slotId : Nat
  kioskProductId : Nat
  currentStock : Int := 0
  lowStockAlarm : Int := 0
  isActive : Bool := true
deriving Repr, DecidableEq

/-- Row of the `kiosk_products` table (models/kiosk_product.py): the
per-kiosk mutable copy of a master product. -/
structure KioskProduct where
  id : Nat
  kioskId : Nat
  baseProductId : Nat
  name : String
  code : Option String := none
  category : Option String := none
  price : Int
  isAdultOnly : Bool := false
  imageUrl : Option String := none
  detailUrl : Option String := none
  description : Option String := none
  isActive : Bool := true
deriving Repr, DecidableEq

/-- Row of the master `products` table, as read by the slot-assign flow. -/
structure Product where
  id : Nat
  name : String
  code : Option String := none
  category : Option String := none
  price : Int
  isAdultOnly : Bool := false
  imageUrl : Option String := none
  detailUrl : Option String := none
  description : Option String := none
  isActive : Bool := true
deriving Repr, DecidableEq

/-- Row of the `kiosk_screen_images` table. -/
structure KioskScreenImage where
  id : Nat
  kioskId : Nat
  imageUrl : String
  sortOrder : Int := 0
  isActive : Bool := true
deriving Repr, DecidableEq

/-- Heartbeat request body (schemas/kiosk.py `KioskHeartbeatRequest`).
The `temperature` float is pure audit-log passthrough, never computed on,
so it is carried opaquely as an integer tick value. -/
structure HeartbeatPayload where
  deviceUuid : String
  appVersion : String
  boardConnected : Bool := true
  errors : List String := []
  temperature : Option Int := none
  doorOpen : Option Bool := none
  currentConfigVersion : Option Int := none
deriving Repr, DecidableEq

/-- Row of the append-only `kiosk_status_logs` audit table; `payload` keeps
the full heartbeat body as inserted by `update_heartbeat`. -/
structure StatusLog where
  kioskId : Nat
  status : String
  payload : HeartbeatPayload
deriving Repr, DecidableEq

/-- Inventory item of the device-facing inventory API
(schemas/kiosk.py `InventoryItem`). -/
structure InventoryItem where
  slotId : Nat
  currentStock : Int
  lowStockAlarm : Option Int := none
deriving Repr, DecidableEq

/-- Whole backing store visible to the protocol gateway: one list per
relational table plus the append-only audit log. -/
structure Db where
  kiosks : List Kiosk
  slots : List VendingSlot
  links : List VendingSlotProduct
  kproducts : List KioskProduct
  products : List Product
  images : List KioskScreenImage
  statusLogs : List StatusLog := []
deriving Repr, DecidableEq

/- ============ Config Builder (kiosk_service.build_config) ============ -/

/-- One row of the slot left-outer-join executed by `build_config`:
a `VendingSlot` with its optional binding and optional product snapshot. -/
structure JoinRow where
  slot : VendingSlot
  vsp : Option VendingSlotProduct
  kp : Option KioskProduct
deriving Repr, DecidableEq

/-- Per-slot entry of the device config (schemas/kiosk.py `SlotConfig`). -/
structure SlotConfig where
  slotId : Nat
  boardCode : String
  row : Int
  col : Int
  label : Option String
  maxCapacity : Int
  productId : Option Nat
  productName : Option String
  price : Option Int
  isAdultOnly : Option Bool
  imageUrl : Option String
  detailImageUrl : Option String
  categoryCode : Option String
  categoryName : Option String
deriving Repr, DecidableEq

/-- Device config snapshot (schemas/kiosk.py `KioskConfig`). -/
structure KioskConfig where
  kioskId : Nat
  kioskName : String
  slots : List SlotConfig
  screensaverImages : List String
deriving Repr, DecidableEq

/-- Sort key `x.sort_order or 0` used on screensaver images. -/
def imgKey (i : KioskScreenImage) : Int := intOr i.sortOrder 0

/-- Comparison by the screensaver sort key. -/
def imgLe (a b : KioskScreenImage) : Prop := imgKey a ≤ imgKey b

instance : DecidableRel imgLe := fun a b => Int.decLe (imgKey a) (imgKey b)

/-- SlotConfig built from one join row, mirroring the two branches of the
loop body in `build_config` (the `if vsp and kp` truthiness test becomes a
match on both options being present). -/
def slotConfigOfRow (r : JoinRow) : SlotConfig :=
  match r.vsp, r.kp with
  | some _, some kp =>
      { slotId := r.slot.id
        boardCode := r.slot.boardCode
        row := r.slot.row
        col := r.slot.col
        label := r.slot.label
        maxCapacity := r.slot.maxCapacity
        productId := some kp.id
        productName := some kp.name
        price := some kp.price
        isAdultOnly := some kp.isAdultOnly
        imageUrl := kp.imageUrl
        detailImageUrl := kp.detailUrl
        categoryCode := kp.category
        categoryName := kp.category }
  | _, _ =>
      { slotId := r.slot.id
        boardCode := r.slot.boardCode
        row := r.slot.row
        col := r.slot.col
        label := r.slot.label
        maxCapacity := r.slot.maxCapacity
        productId := none
        productName := none
        price := none
        isAdultOnly := none
        imageUrl := none
        detailImageUrl := none
        categoryCode := none
        categoryName := none }

/-- Embedding of `kiosk_service.build_config`. The slot query of the source
carries no ORDER BY clause, so the function is parametric in the row order
the database returns (`rows`); `images` is the loaded
`kiosk.screen_images` collection. Python `sorted` is a stable ascending
sort, modelled by `List.insertionSort` on the same key. -/
def build_config (k : Kiosk) (rows : List JoinRow) (images : List KioskScreenImage) :
    KioskConfig :=
  { kioskId := k.id
    kioskName := k.name
    slots := rows.map slotConfigOfRow
    screensaverImages :=
      ((images.filter (·.isActive)).insertionSort imgLe).map (·.imageUrl) }

/-- Left outer join `VendingSlot ⟕ VendingSlotProduct ⟕ KioskProduct` for
one kiosk, with rows in the storage order of the slots table (the SQL query
has no ORDER BY, so storage order stands in for the unspecified database
order; ordering-sensitive claims are stated over arbitrary `rows`). -/
def canonJoin (db : Db) (kioskId : Nat) : List JoinRow :=
  (db.slots.filter (·.kioskId = kioskId)).map fun s =>
    let vsp := db.links.find? (·.slotId = s.id)
    let kp := match vsp with
      | none => none
      | some v => db.kproducts.find? (·.id = v.kioskProductId)
    ⟨s, vsp, kp⟩

/-- Images of one kiosk as loaded through the `screen_images` relationship. -/
def kioskImages (db : Db) (kioskId : Nat) : List KioskScreenImage :=
  db.images.filter (·.kioskId = kioskId)

/-- Config built from the whole store for one kiosk. -/
def buildConfigDb (db : Db) (k : Kiosk) : KioskConfig :=
  build_config k (canonJoin db k.id) (kioskImages db k.id)

/- ======== pairing-code generation (web_kiosks.generate_unique_pair_code_4) ======== -/

/-- Zero-padded four-digit decimal rendering `f"{n:04d}"` of `n ≤ 9999`. -/
def pad4 (n : Nat) : String :=
  let s := toString n
  String.mk (List.replicate (4 - s.length) '0') ++ s

/-- Embedding of `generate_unique_pair_code_4`: the 50 random draws of the
loop are passed in as `rands` (each `randint(0, 9999)` outcome), `codes` is
the set of `pair_code_4` values already present in the kiosks table. The
source raises `HTTPException(500)` after the 50 attempts are exhausted. -/
def genPairCodeLoop (codes : List String) : List Nat → Except HttpErr String
  | [] => .error ⟨500, "could not generate a unique 4-digit code"⟩
  | r :: rs =>
      let code := pad4 r
      if codes.contains code then genPairCodeLoop codes rs
      else .ok code

/-- Full generator: exactly 50 attempts as in `for _ in range(50)`. -/
def generate_unique_pair_code_4 (codes : List String) (rands : List Nat) :
    Except HttpErr String :=
  genPairCodeLoop codes (rands.take 50)

/- =============== kiosk lookup and row update helpers =============== -/

/-- Embedding of `kiosk_service.get_by_id`. -/
def get_by_id (db : Db) (kioskId : Nat) : Option Kiosk :=
  db.kiosks.find? (·.id = kioskId)

/-- Embedding of `kiosk_service.get_by_code`. -/
def get_by_code (db : Db) (code : String) : Option Kiosk :=
  db.kiosks.find? (·.code = code)

/-- ORM mutation of one loaded kiosk row followed by commit: the stored row
with the same primary key takes the new value. -/
def setKiosk (db : Db) (k : Kiosk) : Db :=
  { db with kiosks := db.kiosks.map fun x => if x.id = k.id then k else x }

/-- API-key gate shared by heartbeat, inventory update and remote ping:
`if not x_kiosk_api_key or kiosk.api_key != x_kiosk_api_key` — the header
is rejected when absent or empty (Python falsy) or when it differs from the
stored key. -/
def apiKeyRejected (k : Kiosk) (header : Option String) : Bool :=
  strFalsy header || k.apiKey != header

/- ================= Handshake (api_kiosks.kiosk_handshake) ================= -/

/-- Embedding of `kiosk_service.update_handshake`: records the device
identity and, only when the stored key is falsy (`None` or empty), persists
the freshly generated key (`secrets.token_urlsafe` is passed in as
`freshKey`). Returns the refreshed kiosk row together with the committed
store. -/
def update_handshake (db : Db) (k : Kiosk) (deviceUuid appVersion : String)
    (ip : Option String) (now : Int) (freshKey : String) : Kiosk × Db :=
  let k1 := { k with deviceUuid := some deviceUuid,
                     appVersion := some appVersion,
                     lastIp := ip,
                     lastHeartbeatAt := some now }
  let k2 := if strFalsy k1.apiKey then { k1 with apiKey := some freshKey } else k1
  let k3 := { k2 with updatedAt := now }
  (k3, setKiosk db k3)

/-- Handshake response body (schemas/kiosk.py `KioskHandshakeResponse`);
`api_key` and `pairing_code` are declared `str` there and are carried here
as stored, i.e. still optional. -/
structure HandshakeResponse where
  kioskId : Nat
  storeId : Nat
  apiKey : Option String
  kioskPassword : String
  pairingCode : Option String
  configVersion : Int
  config : KioskConfig
deriving Repr, DecidableEq

/-- Embedding of the `POST /api/kiosks/handshake` endpoint. -/
def kiosk_handshake (db : Db) (kioskCode deviceUuid appVersion : String)
    (ip : Option String) (now : Int) (freshKey : String) :
    Except HttpErr (Db × HandshakeResponse) :=
  match get_by_code db kioskCode with
  | none => .error ⟨403, "Kiosk not allowed"⟩
  | some k =>
      if !k.isActive then .error ⟨403, "Kiosk not allowed"⟩
      else
        let (k', db') := update_handshake db k deviceUuid appVersion ip now freshKey
        let config := buildConfigDb db' k'
        .ok (db', { kioskId := k'.id
                    storeId := k'.storeId
                    apiKey := k'.apiKey
                    kioskPassword := k'.kioskPassword
                    pairingCode := k'.pairCode4
                    configVersion := k'.configVersion
                    config := config })

/- ================= Heartbeat (api_kiosks.kiosk_heartbeat) ================= -/

/-- Embedding of `kiosk_service.update_heartbeat`: refreshes the liveness
columns and appends one append-only audit row carrying the whole payload. -/
def update_heartbeat (db : Db) (k : Kiosk) (appVersion : String)
    (ip : Option String) (payload : HeartbeatPayload) (now : Int) : Kiosk × Db :=
  let k' := { k with appVersion := some appVersion,
                     lastIp := ip,
                     lastHeartbeatAt := some now,
                     updatedAt := now }
  let db' := setKiosk db k'
  (k', { db' with statusLogs := db'.statusLogs ++ [⟨k.id, "ONLINE", payload⟩] })

/-- Heartbeat response body (the dict literal returned by the endpoint). -/
structure HeartbeatResponse where
  ok : Bool
  serverTime : Int
  configVersion : Int
  hasConfigUpdate : Bool
  config : Option KioskConfig
deriving Repr, DecidableEq

/-- Embedding of the `POST /api/kiosks/{kiosk_id}/heartbeat` endpoint. -/
def kiosk_heartbeat (db : Db) (kioskId : Nat) (header : Option String)
    (payload : HeartbeatPayload) (ip : Option String) (now : Int) :
    Except HttpErr (Db × HeartbeatResponse) :=
  match get_by_id db kioskId with
  | none => .error ⟨403, "Kiosk not allowed"⟩
  | some k =>
      if !k.isActive then .error ⟨403, "Kiosk not allowed"⟩
      else if apiKeyRejected k header then .error ⟨401, "Invalid kiosk api key"⟩
      else
        let (k', db') := update_heartbeat db k payload.appVersion ip payload now
        let hasConfigUpdate :=
          match payload.currentConfigVersion with
          | some v => decide (v < intOr k'.configVersion 1)
          | none => false
        let config := if hasConfigUpdate then some (buildConfigDb db' k') else none
        .ok (db', { ok := true
                    serverTime := now
                    configVersion := k'.configVersion
                    hasConfigUpdate := hasConfigUpdate
                    config := config })

/-- N successive heartbeat calls with the same payload, header and ip, at
the given sequence of server times; a rejected call leaves the store
unchanged (the exception is raised before any write). -/
def heartbeatIter (kioskId : Nat) (header : Option String)
    (payload : HeartbeatPayload) (ip : Option String) :
    List Int → Db → Db
  | [], db => db
  | now :: rest, db =>
      match kiosk_heartbeat db kioskId header payload ip now with
      | .ok (db', _) => heartbeatIter kioskId header payload ip rest db'
      | .error _ => heartbeatIter kioskId header payload ip rest db

/- ============ inventory update (vending_service + router) ============ -/

/-- Stock write shared by both inventory modes: the current stock clamped
to ≥ 0 (the partial-mode source clamps with `if current_stock < 0`, the
replace-mode source with `max(0, ...)`, which agree) and, when submitted,
the clamped low-stock alarm. -/
def applyInvItem (cs : Int) (la : Option Int) (l : VendingSlotProduct) :
    VendingSlotProduct :=
  let l' := { l with currentStock := max 0 cs }
  match la with
  | some a => { l' with lowStockAlarm := max 0 a }
  | none => l'

/-- Embedding of `vending_service.set_slot_stock`: checks that the slot
belongs to the kiosk and has a binding, then performs the clamped write;
returns the updated store and the success flag. The binding row is
identified by its slot id, matching the `scalar_one_or_none` lookup of the
source. -/
def set_slot_stock (db : Db) (kioskId slotId : Nat) (currentStock : Int)
    (lowStockAlarm : Option Int) : Db × Bool :=
  match db.slots.find? fun s => s.id = slotId && s.kioskId = kioskId with
  | none => (db, false)
  | some _ =>
      match db.links.find? (·.slotId = slotId) with
      | none => (db, false)
      | some _ =>
          let updf := fun (l : VendingSlotProduct) =>
            if l.slotId = slotId then applyInvItem currentStock lowStockAlarm l
            else l
          ({ db with links := db.links.map updf }, true)

/-- Loop body of the partial update: one submitted item processed against
the accumulated store, bumping the matching counter. -/
def partStep (kioskId : Nat) (acc : Db × Nat × Nat) (item : InventoryItem) :
    Db × Nat × Nat :=
  match set_slot_stock acc.1 kioskId item.slotId item.currentStock
      item.lowStockAlarm with
  | (db1, true) => (db1, acc.2.1 + 1, acc.2.2)
  | (db1, false) => (db1, acc.2.1, acc.2.2 + 1)

/-- Embedding of `vending_service.update_inventory_partial` (the source
name ends in a reserved word of this development and is shortened): fold
over the submitted items, counting successes and skips. -/
def update_inventory_part (db : Db) (kioskId : Nat) (items : List InventoryItem) :
    Db × Nat × Nat :=
  items.foldl (partStep kioskId) (db, 0, 0)

/-- Dict comprehension `{i["slot_id"]: i for i in items}` followed by
`.get(slot.id)`: the last item with the given slot id wins. -/
def payloadLookup (items : List InventoryItem) (sid : Nat) : Option InventoryItem :=
  items.foldl (fun acc i => if i.slotId = sid then some i else acc) none

/-- Slot ⟕ binding rows loaded once at the start of the replace-mode
update (and also the shape the read-only snapshot is built from). -/
def replaceRows (db : Db) (kioskId : Nat) :
    List (VendingSlot × Option VendingSlotProduct) :=
  (db.slots.filter (·.kioskId = kioskId)).map fun s =>
    (s, db.links.find? (·.slotId = s.id))

/-- Loop body of the replace update, per preloaded slot row: unbound slots
are skipped; bound slots are written with the clamped submitted value when
the item list mentions them and zeroed otherwise. -/
def replaceStep (items : List InventoryItem) (acc : Db × Nat × Nat)
    (row : VendingSlot × Option VendingSlotProduct) : Db × Nat × Nat :=
  match row.2 with
  | none => (acc.1, acc.2.1, acc.2.2 + 1)
  | some _ =>
      match payloadLookup items row.1.id with
      | some p =>
          ({ acc.1 with links := acc.1.links.map fun l =>
              if l.slotId = row.1.id then
                applyInvItem p.currentStock p.lowStockAlarm l
              else l },
           acc.2.1 + 1, acc.2.2)
      | none =>
          ({ acc.1 with links := acc.1.links.map fun l =>
              if l.slotId = row.1.id then { l with currentStock := 0 } else l },
           acc.2.1 + 1, acc.2.2)

/-- Embedding of `vending_service.update_inventory_replace`: fold the loop
body over the rows loaded once at the start. -/
def update_inventory_replace (db : Db) (kioskId : Nat) (items : List InventoryItem) :
    Db × Nat × Nat :=
  (replaceRows db kioskId).foldl (replaceStep items) (db, 0, 0)

/-- Result body of the inventory update endpoint. -/
structure InventoryUpdateResult where
  ok : Bool
  updated : Nat
  skipped : Nat
  mode : String
deriving Repr, DecidableEq

/-- Embedding of the `POST /api/kiosks/{kiosk_id}/inventory` endpoint:
auth gate, then replace mode when `mode == "replace"` and partial mode
otherwise (the schema restricts mode to the two literals). -/
def kiosk_inventory_update (db : Db) (kioskId : Nat) (header : Option String)
    (mode : String) (items : List InventoryItem) :
    Except HttpErr (Db × InventoryUpdateResult) :=
  match get_by_id db kioskId with
  | none => .error ⟨403, "Kiosk not allowed"⟩
  | some k =>
      if !k.isActive then .error ⟨403, "Kiosk not allowed"⟩
      else if apiKeyRejected k header then .error ⟨401, "Invalid kiosk api key"⟩
      else
        let (db', updated, skipped) :=
          if mode = "replace" then update_inventory_replace db kioskId items
          else update_inventory_part db kioskId items
        .ok (db', { ok := true, updated := updated, skipped := skipped, mode := mode })

/- ====== inventory snapshot (GET /api/kiosks/{kiosk_id}/inventory) ====== -/

/-- Modelled from the spec: `vending_service.get_inventory_snapshot` is
called by the router but its definition is not under src/. Spec §4.2 and
§6: a read-only dump of all bound slots with their current counters. -/
def get_inventory_snapshot (db : Db) (kioskId : Nat) : List InventoryItem :=
  (replaceRows db kioskId).filterMap fun r =>
    match r.2 with
    | some l => some ⟨r.1.id, l.currentStock, some l.lowStockAlarm⟩
    | none => none

/-- Response body of the snapshot endpoint. -/
structure InventorySnapshot where
  kioskId : Nat
  items : List InventoryItem
deriving Repr, DecidableEq

/-- Embedding of the `GET /api/kiosks/{kiosk_id}/inventory` router
function. The source declares no API-key Header parameter and performs no
key comparison, so the header argument carried by the HTTP request is never
read; it is kept in the signature to state claims about it. -/
def get_kiosk_inventory (db : Db) (kioskId : Nat) (header : Option String) :
    Except HttpErr InventorySnapshot :=
  match get_by_id db kioskId with
  | none => .error ⟨403, "Kiosk not allowed"⟩
  | some k =>
      if !k.isActive then .error ⟨403, "Kiosk not allowed"⟩
      else .ok ⟨kioskId, get_inventory_snapshot db kioskId⟩

/- ====== remote-vend mailbox and remote ping ====== -/

/-- Modelled from the spec: the remote-vend mailbox behind
`kiosk_service.pop_remote_vend_slot` (called by the remote-ping endpoint)
is not under src/. Spec §4.2/§5: a keyed single-slot store, one entry per
kiosk id, overwritten on set, cleared on read — last write wins. Modelled
as an association list from kiosk id to the pending slot id. -/
abbrev Mailbox : Type := List (Nat × Nat)

/-- Modelled from the spec: setting the remote-vend target overwrites any
pending entry for the kiosk. -/
def set_remote_vend_slot (m : Mailbox) (kioskId slotId : Nat) : Mailbox :=
  (kioskId, slotId) :: (m : List (Nat × Nat)).filter (fun e => !(e.1 = kioskId))

/-- Modelled from the spec: atomic get-and-clear of the pending entry. -/
def pop_remote_vend_slot (m : Mailbox) (kioskId : Nat) : Option Nat × Mailbox :=
  match (m : List (Nat × Nat)).find? (fun e => e.1 = kioskId) with
  | none => (none, m)
  | some e => (some e.2, (m : List (Nat × Nat)).filter (fun e => !(e.1 = kioskId)))

/-- Response body of the remote-ping endpoint. -/
structure RemotePingResponse where
  ok : Bool
  remoteVendSlotId : Option Nat
  serverTime : Int
deriving Repr, DecidableEq

/-- Embedding of the `POST /api/kiosks/{kiosk_id}/remote-ping` endpoint:
auth gate from the source, then the spec-modelled mailbox pop. -/
def kiosk_remote_ping (db : Db) (m : Mailbox) (kioskId : Nat)
    (header : Option String) (now : Int) :
    Except HttpErr (Mailbox × RemotePingResponse) :=
  match get_by_id db kioskId with
  | none => .error ⟨403, "Kiosk not allowed"⟩
  | some k =>
      if !k.isActive then .error ⟨403, "Kiosk not allowed"⟩
      else if apiKeyRejected k header then .error ⟨401, "Invalid kiosk api key"⟩
      else
        let (slotId, m') := pop_remote_vend_slot m k.id
        .ok (m', { ok := true, remoteVendSlotId := slotId, serverTime := now })

/- ====== QR/SMS auth sessions (qr_auth_service) ====== -/

/-- Session states (models/qr_auth.py `QrAuthStatus`). -/
inductive QrAuthStatus where
  | PENDING
  | VERIFIED
  | EXPIRED
  | CANCELLED
deriving Repr, DecidableEq

/-- Row of the `qr_auth_sessions` table. -/
structure QrAuthSession where
  id : Nat
  kioskId : Nat
  status : QrAuthStatus := .PENDING
  createdAt : Int
  expiresAt : Int
  verifiedAt : Option Int := none
  userId : Option Nat := none
  phoneNumber : Option String := none
  smsCode : Option String := none
  smsSentAt : Option Int := none
deriving Repr, DecidableEq

/-- Failure kinds of the verification services (each a `ValueError` in the
source, distinguished by its message). -/
inductive QrErr where
  | sessionNotFound
  | sessionExpired
  | noCodeSent
  | codeMismatch
deriving Repr, DecidableEq

/-- Embedding of `qr_auth_service.verify_phone_auth_code` acting on the
session the id lookup resolves to (`none` when the row is missing): returns
the committed session state together with the outcome. Expiry is checked
first and flips the status as a committed side effect even though the call
fails; only then the presence of a sent code and the exact string match are
checked. -/
def verify_phone_auth_code (sess : Option QrAuthSession) (now : Int)
    (inputCode : String) : Option QrAuthSession × Except QrErr Unit :=
  match sess with
  | none => (none, .error .sessionNotFound)
  | some s =>
      if s.expiresAt < now then
        (some { s with status := .EXPIRED }, .error .sessionExpired)
      else if strFalsy s.smsCode || strFalsy s.phoneNumber then
        (some s, .error .noCodeSent)
      else if s.smsCode ≠ some inputCode then
        (some s, .error .codeMismatch)
      else
        (some { s with status := .VERIFIED, verifiedAt := some now }, .ok ())

/-- Embedding of `qr_auth_service.set_session_verified`: same expiry gate,
then unconditional transition to VERIFIED stamping `verified_at` and the
optional user id. -/
def set_session_verified (sess : Option QrAuthSession) (now : Int)
    (userId : Option Nat) : Option QrAuthSession × Except QrErr Unit :=
  match sess with
  | none => (none, .error .sessionNotFound)
  | some s =>
      if s.expiresAt < now then
        (some { s with status := .EXPIRED }, .error .sessionExpired)
      else
        let s1 := { s with status := .VERIFIED, verifiedAt := some now }
        let s2 := match userId with
          | some u => { s1 with userId := some u }
          | none => s1
        (some s2, .ok ())

/- ====== admin config mutations (web_kiosks.py) ====== -/

/-- Version bump `kiosk.config_version = (kiosk.config_version or 0) + 1`
together with the `updated_at` touch, shared verbatim by every
config-affecting admin endpoint. -/
def bumpKiosk (k : Kiosk) (now : Int) : Kiosk :=
  { k with configVersion := intOr k.configVersion 0 + 1, updatedAt := now }

/-- Form fields of `kiosk_product_edit_submit`; the two image fields are
`some url` only when a replacement file was uploaded. -/
structure KpEdit where
  name : String
  price : Int
  code : Option String := none
  category : Option String := none
  isAdultOnly : Bool := false
  description : Option String := none
  isActive : Bool := true
  newImageUrl : Option String := none
  newDetailUrl : Option String := none
deriving Repr, DecidableEq

/-- Embedding of `kiosk_slot_clear` (an authorized admin is assumed; the
login/role gates return before any write): on a slot owned by the kiosk,
delete its binding if any, zero its capacity, bump the config version, all
committed once. The flag records whether the mutation ran. -/
def kiosk_slot_clear (db : Db) (kioskId slotId : Nat) (now : Int) : Db × Bool :=
  match get_by_id db kioskId with
  | none => (db, false)
  | some k =>
      match db.slots.find? (·.id = slotId) with
      | none => (db, false)
      | some slot =>
          if slot.kioskId ≠ kioskId then (db, false)
          else
            let db1 := { db with
              links := db.links.filter (fun l => !(l.slotId = slotId)),
              slots := db.slots.map fun s =>
                if s.id = slotId then { s with maxCapacity := 0 } else s }
            (setKiosk db1 (bumpKiosk k now), true)

/-- Embedding of `kiosk_slot_assign` (and its `assign-json` twin, which
performs the identical writes): upsert the per-kiosk product snapshot (a
fresh primary key is passed in for the insert case), set the slot capacity,
upsert the slot binding, bump the config version, one commit. -/
def kiosk_slot_assign (db : Db) (kioskId slotId productId : Nat)
    (maxCapacity currentStock lowStockAlarm : Int) (now : Int)
    (freshKpId : Nat) : Db × Bool :=
  match get_by_id db kioskId with
  | none => (db, false)
  | some k =>
      match db.slots.find? (·.id = slotId) with
      | none => (db, false)
      | some slot =>
          if slot.kioskId ≠ kioskId then (db, false)
          else
            match db.products.find? (·.id = productId) with
            | none => (db, false)
            | some bp =>
                let kpFound := db.kproducts.find? fun p =>
                  p.kioskId = kioskId && p.baseProductId = bp.id
                let kpId : Nat :=
                  match kpFound with
                  | some kp => kp.id
                  | none => freshKpId
                let db1 : Db :=
                  match kpFound with
                  | some _ => db
                  | none =>
                      { db with kproducts := db.kproducts ++
                          [{ id := freshKpId
                             kioskId := kioskId
                             baseProductId := bp.id
                             name := bp.name
                             code := bp.code
                             category := bp.category
                             price := bp.price
                             isAdultOnly := bp.isAdultOnly
                             imageUrl := bp.imageUrl
                             detailUrl := bp.detailUrl
                             description := bp.description
                             isActive := bp.isActive }] }
                let db2 : Db := { db1 with slots := db1.slots.map fun s =>
                  if s.id = slotId then
                    { s with maxCapacity := maxCapacity, updatedAt := now }
                  else s }
                let db3 : Db :=
                  match db2.links.find? (·.slotId = slotId) with
                  | none =>
                      { db2 with links := db2.links ++
                        [{ slotId := slotId
                           kioskProductId := kpId
                           currentStock := currentStock
                           lowStockAlarm := lowStockAlarm
                           isActive := true }] }
                  | some _ =>
                      { db2 with links := db2.links.map fun l =>
                        if l.slotId = slotId then
                          { l with kioskProductId := kpId
                                   currentStock := currentStock
                                   lowStockAlarm := lowStockAlarm
                                   isActive := true }
                        else l }
                (setKiosk db3 (bumpKiosk k now), true)

/-- Embedding of `kiosk_screensaver_upload`: the object-store upload yields
`imageUrl`; the new image gets `sort_order` one past the current maximum
(`coalesce(max(sort_order), 0)`), and the version is bumped. -/
def kiosk_screensaver_upload (db : Db) (kioskId : Nat) (imageUrl : String)
    (now : Int) (freshImgId : Nat) : Db × Bool :=
  match get_by_id db kioskId with
  | none => (db, false)
  | some k =>
      let maxOrder :=
        ((db.images.filter (·.kioskId = k.id)).map (·.sortOrder)).foldl max 0
      let db1 := { db with images := db.images ++
        [{ id := freshImgId
           kioskId := k.id
           imageUrl := imageUrl
           sortOrder := maxOrder + 1
           isActive := true }] }
      (setKiosk db1 (bumpKiosk k now), true)

/-- Embedding of `kiosk_screensaver_delete`: delete the image owned by the
kiosk and bump; when the image is not found nothing is written at all. -/
def kiosk_screensaver_delete (db : Db) (kioskId imageId : Nat) (now : Int) :
    Db × Bool :=
  match get_by_id db kioskId with
  | none => (db, false)
  | some k =>
      match db.images.find? fun i => i.id = imageId && i.kioskId = kioskId with
      | none => (db, false)
      | some _ =>
          let db1 := { db with
            images := db.images.filter fun i =>
              !(i.id = imageId && i.kioskId = kioskId) }
          (setKiosk db1 (bumpKiosk k now), true)

/-- Embedding of `kiosk_product_edit_submit`: update the per-kiosk product
snapshot owned by the kiosk (Python `code or None` turns falsy strings into
NULL; image urls are kept unless a new upload replaced them) and bump. -/
def kiosk_product_edit (db : Db) (kioskId kpId : Nat) (e : KpEdit) (now : Int) :
    Db × Bool :=
  match get_by_id db kioskId with
  | none => (db, false)
  | some k =>
      match db.kproducts.find? (·.id = kpId) with
      | none => (db, false)
      | some kp =>
          if kp.kioskId ≠ kioskId then (db, false)
          else
            let db1 := { db with kproducts := db.kproducts.map fun p =>
              if p.id = kpId then
                { p with name := e.name
                         price := e.price
                         code := if strFalsy e.code then none else e.code
                         category := if strFalsy e.category then none else e.category
                         isAdultOnly := e.isAdultOnly
                         description :=
                           if strFalsy e.description then none else e.description
                         isActive := e.isActive
                         imageUrl := e.newImageUrl.orElse fun _ => p.imageUrl
                         detailUrl := e.newDetailUrl.orElse fun _ => p.detailUrl }
              else p }
            (setKiosk db1 (bumpKiosk k now), true)

/-- Sum of the config-affecting admin mutations named by the invalidation
protocol (§4.3). -/
inductive AdminOp where
  | slotClear (kioskId slotId : Nat) (now : Int)
  | slotAssign (kioskId slotId productId : Nat)
      (maxCapacity currentStock lowStockAlarm : Int) (now : Int) (freshKpId : Nat)
  | screensaverUpload (kioskId : Nat) (imageUrl : String) (now : Int)
      (freshImgId : Nat)
  | screensaverDelete (kioskId imageId : Nat) (now : Int)
  | productEdit (kioskId kpId : Nat) (e : KpEdit) (now : Int)
deriving Repr, DecidableEq

/-- Kiosk addressed by an admin mutation. -/
def AdminOp.kioskId : AdminOp → Nat
  | .slotClear kid _ _ => kid
  | .slotAssign kid _ _ _ _ _ _ _ => kid
  | .screensaverUpload kid _ _ _ => kid
  | .screensaverDelete kid _ _ => kid
  | .productEdit kid _ _ _ => kid

/-- One admin request: the transaction of the corresponding endpoint. -/
def adminStep : AdminOp → Db → Db × Bool
  | .slotClear kid sid now, db => kiosk_slot_clear db kid sid now
  | .slotAssign kid sid pid mc cs la now fkp, db =>
      kiosk_slot_assign db kid sid pid mc cs la now fkp
  | .screensaverUpload kid url now fid, db =>
      kiosk_screensaver_upload db kid url now fid
  | .screensaverDelete kid iid now, db => kiosk_screensaver_delete db kid iid now
  | .productEdit kid kpid e now, db => kiosk_product_edit db kid kpid e now

/-- Sequence of admin requests, also counting, for one observed kiosk, how
many of them actually performed their config-affecting mutation. -/
def adminRunCount (kid : Nat) : List AdminOp → Db → Db × Nat
  | [], db => (db, 0)
  | op :: ops, db =>
      let (db', b) := adminStep op db
      let (db'', n) := adminRunCount kid ops db'
      (db'', (if b && op.kioskId = kid then 1 else 0) + n)

/- ===================== fixtures for concrete witnesses ===================== -/

/-- Fixture kiosk: active, provisioned key, pairing code, version 3. -/
def k0 : Kiosk :=
  { id := 1, storeId := 1, code := "K1", name := "Kiosk One",
    kioskPassword := "pw", apiKey := some "KEY", deviceUuid := some "ddd",
    appVersion := some "1.0", pairCode4 := some "0420", configVersion := 3 }

/-- Fixture slot A01, bound. -/
def s11 : VendingSlot :=
  { id := 11, kioskId := 1, row := 1, col := 1, boardCode := "A01",
    label := some "1-1", maxCapacity := 10 }

/-- Fixture slot A02, bound. -/
def s12 : VendingSlot :=
  { id := 12, kioskId := 1, row := 1, col := 2, boardCode := "A02",
    label := some "1-2", maxCapacity := 10 }

/-- Fixture slot B01, unbound. -/
def s13 : VendingSlot :=
  { id := 13, kioskId := 1, row := 2, col := 1, boardCode := "B01",
    label := some "2-1", maxCapacity := 0 }

/-- Binding of slot A01: stock 5, alarm 1. -/
def l11 : VendingSlotProduct :=
  { slotId := 11, kioskProductId := 21, currentStock := 5, lowStockAlarm := 1 }

/-- Binding of slot A02: stock 2, alarm 0. -/
def l12 : VendingSlotProduct :=
  { slotId := 12, kioskProductId := 21, currentStock := 2, lowStockAlarm := 0 }

/-- Per-kiosk product snapshot fixture. -/
def kp21 : KioskProduct :=
  { id := 21, kioskId := 1, baseProductId := 31, name := "Prod", price := 1000 }

/-- Master product fixture. -/
def p31 : Product := { id := 31, name := "Prod", price := 1000 }

/-- Active screensaver image with sort order 2. -/
def img41 : KioskScreenImage := { id := 41, kioskId := 1, imageUrl := "u1", sortOrder := 2 }

/-- Active screensaver image with sort order 1. -/
def img42 : KioskScreenImage := { id := 42, kioskId := 1, imageUrl := "u2", sortOrder := 1 }

/-- Inactive screensaver image. -/
def img43 : KioskScreenImage :=
  { id := 43, kioskId := 1, imageUrl := "u3", sortOrder := 3, isActive := false }

/-- Fixture store: one kiosk, three slots of which two are bound. -/
def db0 : Db :=
  { kiosks := [k0], slots := [s11, s12, s13], links := [l11, l12],
    kproducts := [kp21], products := [p31], images := [img41, img42, img43] }

/- ===================== shared lemmas ===================== -/

/-- Python `(v or 0) + 1` is plain successor on integers. -/
lemma intOr_zero_add_one (v : Int) : intOr v 0 + 1 = v + 1 := by
  unfold intOr; split <;> omega

/-- Committing an updated kiosk row makes the id lookup return it, as soon
as some row with that id exists. -/
lemma find?_setKiosk (l : List Kiosk) (kid : Nat) (knew : Kiosk)
    (hid : knew.id = kid) (hmem : ∃ x, x ∈ l ∧ x.id = kid) :
    (l.map fun x => if x.id = knew.id then knew else x).find?
      (fun x => x.id = kid) = some knew := by
  induction l with
  | nil =>
      obtain ⟨x, hx, _⟩ := hmem
      cases hx
  | cons a l ih =>
      by_cases ha : a.id = kid
      · simp [List.find?, ha, hid]
      · have hmem' : ∃ x, x ∈ l ∧ x.id = kid := by
          obtain ⟨x, hx, hxid⟩ := hmem
          rcases List.mem_cons.mp hx with h | h
          · exact absurd (h ▸ hxid) ha
          · exact ⟨x, h, hxid⟩
        have hane : ¬ a.id = knew.id := fun h => ha (h.trans hid)
        simp [List.find?, ha, hane, ih hmem']

/-- Committing a kiosk row does not disturb id lookups of other kiosks. -/
lemma find?_setKiosk_other (l : List Kiosk) (kid : Nat) (knew : Kiosk)
    (hne : knew.id ≠ kid) :
    (l.map fun x => if x.id = knew.id then knew else x).find?
      (fun x => x.id = kid) = l.find? fun x => x.id = kid := by
  induction l with
  | nil => rfl
  | cons a l ih =>
      by_cases ha : a.id = knew.id
      · have hak : ¬ a.id = kid := fun h => hne (ha ▸ h)
        simp [List.find?, ha, hak, hne, ih]
      · simp only [List.map_cons, if_neg ha]
        by_cases hak : a.id = kid
        · simp [List.find?, hak]
        · simp [List.find?, hak, ih]

/-- Committing an updated kiosk row that keeps the looked-up code makes the
code lookup return it. -/
lemma find?_code_setKiosk (l : List Kiosk) (code : String) (k knew : Kiosk)
    (hfind : l.find? (fun x => x.code = code) = some k)
    (hid : knew.id = k.id) (hcode : knew.code = code) :
    (l.map fun x => if x.id = knew.id then knew else x).find?
      (fun x => x.code = code) = some knew := by
  induction l with
  | nil => cases hfind
  | cons a l ih =>
      by_cases pa : a.code = code
      · have hk : a = k := by
          have : some a = some k := by
            simpa [List.find?, pa] using hfind
          exact Option.some.inj this
        subst hk
        simp [List.find?, hid, pa, hcode]
      · by_cases hb : a.id = knew.id
        · simp [List.find?, hb, hcode]
        · have hfind' : l.find? (fun x => x.code = code) = some k := by
            simpa [List.find?, pa] using hfind
          simp [List.find?, hb, pa, ih hfind']

/- ===================== C9: pairing-code generation ===================== -/

/-- Returned codes never collide with an existing pairing code. -/
lemma genPairCodeLoop_ok_not_mem (codes : List String) :
    ∀ rands c, genPairCodeLoop codes rands = .ok c → codes.contains c = false := by
  intro rands
  induction rands with
  | nil => intro c h; simp [genPairCodeLoop] at h
  | cons r rs ih =>
      intro c h
      simp only [genPairCodeLoop] at h
      by_cases hc : codes.contains (pad4 r) = true
      · rw [if_pos hc] at h
        exact ih c h
      · rw [if_neg hc] at h
        cases h
        simpa using hc

/-- When every drawn code already exists the loop runs out and raises. -/
lemma genPairCodeLoop_all_collide (codes : List String) :
    ∀ rands, (∀ r ∈ rands, codes.contains (pad4 r) = true) →
      genPairCodeLoop codes rands =
        .error ⟨500, "could not generate a unique 4-digit code"⟩ := by
  intro rands
  induction rands with
  | nil => intro _; rfl
  | cons r rs ih =>
      intro h
      have hr := h r (List.mem_cons_self r rs)
      simp only [genPairCodeLoop, hr, if_true]
      exact ih fun x hx => h x (List.mem_cons_of_mem _ hx)

/-- C9: pairing-code generation never returns a code colliding with an
existing kiosk code, and when every one of its (at most 50) draws collides
— in particular once all 10000 four-digit codes are taken — it fails with
the `HTTPException` raised after the retry loop instead of looping
forever. -/
theorem pair_code_generation_contract (codes : List String) (rands : List Nat) :
    (∀ c, generate_unique_pair_code_4 codes rands = .ok c → codes.contains c = false)
  ∧ ((∀ r ∈ rands, codes.contains (pad4 r) = true) →
      generate_unique_pair_code_4 codes rands =
        .error ⟨500, "could not generate a unique 4-digit code"⟩) := by
  constructor
  · intro c h
    exact genPairCodeLoop_ok_not_mem codes _ c h
  · intro h
    exact genPairCodeLoop_all_collide codes _
      fun r hr => h r (List.take_subset 50 rands hr)

/-- The full four-digit code space, as stored pairing codes. -/
def allPairCodes : List String := (List.range 10000).map pad4

/-- C9 witness: with all 10000 codes taken, 50 draws of `0007` exhaust the
loop and surface the failure. -/
theorem pair_code_generation_contract_witness :
    generate_unique_pair_code_4 allPairCodes (List.replicate 50 7) =
      .error ⟨500, "could not generate a unique 4-digit code"⟩ := by
  refine (pair_code_generation_contract allPairCodes (List.replicate 50 7)).2 ?_
  intro r hr
  have h7 : r = 7 := List.eq_of_mem_replicate hr
  subst h7
  have hm : pad4 7 ∈ allPairCodes :=
    List.mem_map.mpr ⟨7, List.mem_range.mpr (by omega), rfl⟩
  exact List.elem_eq_true_of_mem hm

/- ===================== C8: session verification ===================== -/

/-- Session fixture: CANCELLED (a terminal state) but not yet past its
expiry, with an SMS code on file. -/
def sCancelled : QrAuthSession :=
  { id := 7, kioskId := 1, status := .CANCELLED, createdAt := 0,
    expiresAt := 100, phoneNumber := some "01012345678",
    smsCode := some "123456", smsSentAt := some 0 }

/-- C8 counterexample: the verification services check only expiry, never
the PENDING status, so a non-expired CANCELLED session is happily moved to
VERIFIED — refuting that VERIFIED is reached only from PENDING. -/
theorem verified_reached_from_cancelled :
    sCancelled.status ≠ QrAuthStatus.PENDING
  ∧ verify_phone_auth_code (some sCancelled) 5 "123456" =
      (some { sCancelled with status := .VERIFIED, verifiedAt := some 5 },
       .ok ()) := by
  constructor
  · decide
  · decide

/-- C8 amended: verification requires only non-expiry, not the PENDING
status. On an expired session it fails and flips the status to EXPIRED as
a committed side effect; with no SMS code (or phone) on file it fails
unchanged; on a wrong code it fails unchanged; on an exact match it sets
VERIFIED and stamps `verified_at`; success implies non-expiry and the
exact match; and `set_session_verified` succeeds only on non-expired
sessions. -/
theorem verify_phone_auth_code_contract (s : QrAuthSession) (now : Int)
    (code : String) (uid : Option Nat) :
    (s.expiresAt < now →
       verify_phone_auth_code (some s) now code =
         (some { s with status := .EXPIRED }, .error .sessionExpired))
  ∧ (¬ s.expiresAt < now → (strFalsy s.smsCode || strFalsy s.phoneNumber) = true →
       verify_phone_auth_code (some s) now code = (some s, .error .noCodeSent))
  ∧ (¬ s.expiresAt < now → (strFalsy s.smsCode || strFalsy s.phoneNumber) = false →
       s.smsCode ≠ some code →
       verify_phone_auth_code (some s) now code = (some s, .error .codeMismatch))
  ∧ (¬ s.expiresAt < now → (strFalsy s.smsCode || strFalsy s.phoneNumber) = false →
       s.smsCode = some code →
       verify_phone_auth_code (some s) now code =
         (some { s with status := .VERIFIED, verifiedAt := some now }, .ok ()))
  ∧ ((verify_phone_auth_code (some s) now code).2 = .ok () →
       ¬ s.expiresAt < now ∧ s.smsCode = some code)
  ∧ ((set_session_verified (some s) now uid).2 = .ok () → ¬ s.expiresAt < now) := by
  refine ⟨?_, ?_, ?_, ?_, ?_, ?_⟩
  · intro h
    simp [verify_phone_auth_code, if_pos h]
  · intro h hb
    simp [verify_phone_auth_code, if_neg h, hb]
  · intro h hb hne
    simp [verify_phone_auth_code, if_neg h, hb, if_pos hne]
  · intro h hb heq
    have hb' : strFalsy s.smsCode = false ∧ strFalsy s.phoneNumber = false := by
      simpa using hb
    have h1 : strFalsy (some code) = false := heq ▸ hb'.1
    simp [verify_phone_auth_code, if_neg h, heq, hb'.2, h1]
  · intro hok
    by_cases h : s.expiresAt < now
    · simp [verify_phone_auth_code, if_pos h] at hok
    · refine ⟨h, ?_⟩
      by_cases hb : (strFalsy s.smsCode || strFalsy s.phoneNumber) = true
      · simp [verify_phone_auth_code, if_neg h, hb] at hok
      · by_cases hne : s.smsCode = some code
        · exact hne
        · simp [verify_phone_auth_code, if_neg h,
                Bool.not_eq_true _ ▸ hb, hne] at hok
  · intro hok
    by_cases h : s.expiresAt < now
    · simp [set_session_verified, if_pos h] at hok
    · exact h

/-- PENDING session fixture with a sent SMS code. -/
def sPending : QrAuthSession :=
  { id := 8, kioskId := 1, status := .PENDING, createdAt := 0,
    expiresAt := 100, phoneNumber := some "01012345678",
    smsCode := some "777777", smsSentAt := some 0 }

/-- C8 witness: the amended contract applied to a concrete pending session
with the matching code. -/
theorem verify_phone_auth_code_contract_witness :
    verify_phone_auth_code (some sPending) 5 "777777" =
      (some { sPending with status := .VERIFIED, verifiedAt := some 5 }, .ok ()) :=
  (verify_phone_auth_code_contract sPending 5 "777777" none).2.2.2.1
    (by decide) (by decide) (by decide)

/- ===================== C3: device auth gating ===================== -/

/-- C3: the snapshot endpoint `GET /api/kiosks/kiosk_id/inventory` never
reads the X-Kiosk-Api-Key header: on an active kiosk whose stored key is
set, both a missing and a wrong header are answered with the full
inventory instead of Unauthorized — contradicting the endpoint docstring
and the spec. The heartbeat, inventory-update and remote-ping gates, by
contrast, do reject a missing key on the very same store. -/
theorem inventory_get_skips_auth :
    get_by_id db0 1 = some k0
  ∧ k0.isActive = true
  ∧ k0.apiKey = some "KEY"
  ∧ get_kiosk_inventory db0 1 none =
      .ok ⟨1, [⟨11, 5, some 1⟩, ⟨12, 2, some 0⟩]⟩
  ∧ get_kiosk_inventory db0 1 (some "WRONG") =
      .ok ⟨1, [⟨11, 5, some 1⟩, ⟨12, 2, some 0⟩]⟩
  ∧ kiosk_heartbeat db0 1 none
      { deviceUuid := "ddd", appVersion := "1.0" } none 50 =
      .error ⟨401, "Invalid kiosk api key"⟩
  ∧ kiosk_inventory_update db0 1 (some "WRONG") "partial" [] =
      .error ⟨401, "Invalid kiosk api key"⟩
  ∧ kiosk_remote_ping db0 [] 1 none 50 =
      .error ⟨401, "Invalid kiosk api key"⟩ := by
  refine ⟨?_, ?_, ?_, ?_, ?_, ?_, ?_, ?_⟩ <;> decide

/- ===================== C4: remote-vend mailbox ===================== -/

/-- Pop clears every entry of the kiosk, so a second pop finds nothing. -/
lemma pop_after_pop (m : Mailbox) (kid : Nat) :
    pop_remote_vend_slot (pop_remote_vend_slot m kid).2 kid =
      (none, (pop_remote_vend_slot m kid).2) := by
  unfold pop_remote_vend_slot
  cases hf : (m : List (Nat × Nat)).find? (fun e => e.1 = kid) with
  | none => simp [hf]
  | some e =>
      simp only [hf]
      have hnone : ((m : List (Nat × Nat)).filter
          (fun e => !(e.1 = kid))).find? (fun e => e.1 = kid) = none := by
        rw [List.find?_eq_none]
        intro x hx
        have := List.of_mem_filter hx
        simpa using this
      simp [hnone]

/-- C4: an authenticated remote ping returns and consumes the pending
remote-vend slot (or null when none is pending): the delivered value is
exactly the mailbox content, the entry is cleared so a second pop yields
nothing, and setting the target twice before any poll delivers only the
second value. -/
theorem remote_ping_contract (db : Db) (kid : Nat) (k : Kiosk)
    (header : Option String) (m : Mailbox) (now : Int) (s1 s2 : Nat)
    (hfind : get_by_id db kid = some k) (hact : k.isActive = true)
    (hauth : apiKeyRejected k header = false) :
    kiosk_remote_ping db m kid header now =
      .ok ((pop_remote_vend_slot m k.id).2,
           { ok := true,
             remoteVendSlotId := (pop_remote_vend_slot m k.id).1,
             serverTime := now })
  ∧ pop_remote_vend_slot (pop_remote_vend_slot m k.id).2 k.id =
      (none, (pop_remote_vend_slot m k.id).2)
  ∧ (pop_remote_vend_slot
       (set_remote_vend_slot (set_remote_vend_slot m k.id s1) k.id s2) k.id).1 =
      some s2 := by
  refine ⟨?_, pop_after_pop m k.id, ?_⟩
  · simp [kiosk_remote_ping, hfind, hact, hauth]
  · simp [set_remote_vend_slot, pop_remote_vend_slot, List.find?]

/-- C4 witness: concrete ping on the fixture store with two queued
targets. -/
theorem remote_ping_contract_witness :
    kiosk_remote_ping db0 [(1, 11)] 1 (some "KEY") 50 =
      .ok ([], { ok := true, remoteVendSlotId := some 11, serverTime := 50 })
  ∧ (pop_remote_vend_slot
       (set_remote_vend_slot (set_remote_vend_slot [] 1 11) 1 12) 1).1 =
      some 12 := by
  have h := remote_ping_contract db0 1 k0 (some "KEY") [(1, 11)] 50 11 12
    (by decide) (by decide) (by decide)
  refine ⟨?_, h.2.2⟩
  have h1 := h.1
  simpa using h1

/- ===================== C2: heartbeat contract ===================== -/

/-- Kiosk row as refreshed by one heartbeat. -/
def hbKiosk (k : Kiosk) (payload : HeartbeatPayload) (ip : Option String)
    (now : Int) : Kiosk :=
  { k with appVersion := some payload.appVersion, lastIp := ip,
           lastHeartbeatAt := some now, updatedAt := now }

/-- Store after one successful heartbeat: refreshed kiosk row plus one
appended audit row. -/
def hbDb (db : Db) (k : Kiosk) (payload : HeartbeatPayload) (ip : Option String)
    (now : Int) : Db :=
  let db' := setKiosk db (hbKiosk k payload ip now)
  { db' with statusLogs := db'.statusLogs ++ [⟨k.id, "ONLINE", payload⟩] }

/-- Config-update decision of the heartbeat endpoint. -/
def hbHasUpd (payload : HeartbeatPayload) (k : Kiosk) : Bool :=
  match payload.currentConfigVersion with
  | some v => decide (v < intOr k.configVersion 1)
  | none => false

/-- Evaluation of one authenticated heartbeat call. -/
lemma kiosk_heartbeat_ok (db : Db) (kid : Nat) (k : Kiosk)
    (header : Option String) (payload : HeartbeatPayload) (ip : Option String)
    (now : Int) (hfind : get_by_id db kid = some k) (hact : k.isActive = true)
    (hauth : apiKeyRejected k header = false) :
    kiosk_heartbeat db kid header payload ip now =
      .ok (hbDb db k payload ip now,
           { ok := true
             serverTime := now
             configVersion := k.configVersion
             hasConfigUpdate := hbHasUpd payload k
             config :=
               if hbHasUpd payload k then
                 some (buildConfigDb (hbDb db k payload ip now)
                        (hbKiosk k payload ip now))
               else none }) := by
  simp only [kiosk_heartbeat, hfind, hact, Bool.not_true, Bool.false_eq_true,
    if_false, hauth, update_heartbeat, hbDb, hbKiosk, hbHasUpd]

/-- All calls of a heartbeat sequence succeed. -/
def heartbeatAllOk (kid : Nat) (header : Option String)
    (payload : HeartbeatPayload) (ip : Option String) : List Int → Db → Bool
  | [], _ => true
  | now :: rest, db =>
      match kiosk_heartbeat db kid header payload ip now with
      | .ok (db', _) => heartbeatAllOk kid header payload ip rest db'
      | .error _ => false

/-- Invariant of repeated heartbeats: the kiosk stays resolvable with
unchanged `config_version`, activity and key; the audit log grows by one
row per call; no call fails. -/
lemma heartbeatIter_inv (kid : Nat) (header : Option String)
    (payload : HeartbeatPayload) (ip : Option String) :
    ∀ (times : List Int) (db : Db) (k : Kiosk),
      get_by_id db kid = some k → k.isActive = true →
      apiKeyRejected k header = false →
      ∃ k', get_by_id (heartbeatIter kid header payload ip times db) kid = some k'
        ∧ k'.configVersion = k.configVersion
        ∧ k'.isActive = true
        ∧ k'.apiKey = k.apiKey
        ∧ (heartbeatIter kid header payload ip times db).statusLogs.length
            = db.statusLogs.length + times.length
        ∧ heartbeatAllOk kid header payload ip times db = true := by
  intro times
  induction times with
  | nil =>
      intro db k hfind hact hauth
      exact ⟨k, hfind, rfl, hact, rfl, rfl, rfl⟩
  | cons now rest ih =>
      intro db k hfind hact hauth
      have hkid : k.id = kid := by simpa using List.find?_some hfind
      have hmem : ∃ x, x ∈ db.kiosks ∧ x.id = kid :=
        ⟨k, List.mem_of_find?_eq_some hfind, hkid⟩
      have hstep := kiosk_heartbeat_ok db kid k header payload ip now hfind hact hauth
      have hfind' : get_by_id (hbDb db k payload ip now) kid =
          some (hbKiosk k payload ip now) := by
        have := find?_setKiosk db.kiosks kid (hbKiosk k payload ip now)
          (by simpa [hbKiosk] using hkid) hmem
        simpa [get_by_id, hbDb, setKiosk] using this
      obtain ⟨k', h1, h2, h3, h4, h5, h6⟩ :=
        ih (hbDb db k payload ip now) (hbKiosk k payload ip now) hfind'
          (by simpa [hbKiosk] using hact) (by simpa [apiKeyRejected, hbKiosk] using hauth)
      have hIter : heartbeatIter kid header payload ip (now :: rest) db
          = heartbeatIter kid header payload ip rest (hbDb db k payload ip now) := by
        simp [heartbeatIter, hstep]
      have hAll : heartbeatAllOk kid header payload ip (now :: rest) db
          = heartbeatAllOk kid header payload ip rest (hbDb db k payload ip now) := by
        simp [heartbeatAllOk, hstep]
      have hlen : (hbDb db k payload ip now).statusLogs.length
          = db.statusLogs.length + 1 := by
        simp [hbDb, setKiosk]
      refine ⟨k', ?_, ?_, h3, ?_, ?_, ?_⟩
      · rw [hIter]; exact h1
      · simpa [hbKiosk] using h2
      · simpa [hbKiosk] using h4
      · rw [hIter, h5, hlen]
        simp [List.length_cons]
        omega
      · rw [hAll]; exact h6

/-- C2: an authenticated heartbeat on an active kiosk (stored version at
least its initial 1) succeeds; `has_config_update` holds exactly when the
payload carries a `current_config_version` strictly below the stored one
and the config is attached exactly in that case; the response always
carries server time, the stored version and the flag; and N repetitions
refresh the liveness columns and append N audit rows while never changing
`config_version` and never failing. -/
theorem heartbeat_contract (db : Db) (kid : Nat) (k : Kiosk)
    (header : Option String) (payload : HeartbeatPayload) (ip : Option String)
    (now : Int) (times : List Int)
    (hfind : get_by_id db kid = some k) (hact : k.isActive = true)
    (hauth : apiKeyRejected k header = false) (hcv : 1 ≤ k.configVersion) :
    (∃ db' resp, kiosk_heartbeat db kid header payload ip now = .ok (db', resp)
      ∧ (resp.hasConfigUpdate = true ↔
          ∃ v, payload.currentConfigVersion = some v ∧ v < k.configVersion)
      ∧ resp.config = (if resp.hasConfigUpdate then
          some (buildConfigDb db' (hbKiosk k payload ip now)) else none)
      ∧ resp.ok = true
      ∧ resp.serverTime = now
      ∧ resp.configVersion = k.configVersion
      ∧ db'.statusLogs = db.statusLogs ++ [⟨k.id, "ONLINE", payload⟩]
      ∧ get_by_id db' kid = some (hbKiosk k payload ip now))
  ∧ (∃ k', get_by_id (heartbeatIter kid header payload ip times db) kid = some k'
      ∧ k'.configVersion = k.configVersion ∧ k'.isActive = true
      ∧ k'.apiKey = k.apiKey)
  ∧ (heartbeatIter kid header payload ip times db).statusLogs.length
      = db.statusLogs.length + times.length
  ∧ heartbeatAllOk kid header payload ip times db = true := by
  have hstep := kiosk_heartbeat_ok db kid k header payload ip now hfind hact hauth
  have hkid : k.id = kid := by simpa using List.find?_some hfind
  have hmem : ∃ x, x ∈ db.kiosks ∧ x.id = kid :=
    ⟨k, List.mem_of_find?_eq_some hfind, hkid⟩
  have hintOr : intOr k.configVersion 1 = k.configVersion := by
    unfold intOr; split <;> omega
  have hiff : hbHasUpd payload k = true ↔
      ∃ v, payload.currentConfigVersion = some v ∧ v < k.configVersion := by
    unfold hbHasUpd
    cases hc : payload.currentConfigVersion with
    | none => simp
    | some v => simp [hintOr]
  obtain ⟨k', h1, h2, h3, h4, h5, h6⟩ :=
    heartbeatIter_inv kid header payload ip times db k hfind hact hauth
  refine ⟨?_, ⟨k', h1, h2, h3, h4⟩, h5, h6⟩
  refine ⟨hbDb db k payload ip now, _, hstep, hiff, rfl, rfl, rfl, rfl, ?_, ?_⟩
  · simp [hbDb, setKiosk]
  · have := find?_setKiosk db.kiosks kid (hbKiosk k payload ip now)
      (by simpa [hbKiosk] using hkid) hmem
    simpa [get_by_id, hbDb, setKiosk] using this

/-- Heartbeat payload fixture announcing version 2 against stored 3. -/
def hbPayload0 : HeartbeatPayload :=
  { deviceUuid := "ddd", appVersion := "1.1", currentConfigVersion := some 2 }

/-- C2 witness: concrete heartbeat on the fixture store, with the update
flag forced by the version gap. -/
theorem heartbeat_contract_witness :
    ∃ db' resp, kiosk_heartbeat db0 1 (some "KEY") hbPayload0 none 50 =
      .ok (db', resp) ∧ resp.hasConfigUpdate = true := by
  obtain ⟨⟨db', resp, hrun, hiff, _⟩, _⟩ :=
    heartbeat_contract db0 1 k0 (some "KEY") hbPayload0 none 50 []
      (by decide) (by decide) (by decide) (by decide)
  exact ⟨db', resp, hrun, hiff.mpr ⟨2, rfl, by decide⟩⟩

/- ===================== C6: handshake contract ===================== -/

/-- Kiosk row as rewritten by one handshake. -/
def hsKiosk (k : Kiosk) (du av : String) (ip : Option String) (now : Int)
    (freshKey : String) : Kiosk :=
  let k1 := { k with deviceUuid := some du, appVersion := some av,
                     lastIp := ip, lastHeartbeatAt := some now }
  let k2 := if strFalsy k1.apiKey then { k1 with apiKey := some freshKey } else k1
  { k2 with updatedAt := now }

/-- Evaluation of one allowed handshake call. -/
lemma kiosk_handshake_ok (db : Db) (code du av : String) (ip : Option String)
    (now : Int) (freshKey : String) (k : Kiosk)
    (hfind : get_by_code db code = some k) (hact : k.isActive = true) :
    kiosk_handshake db code du av ip now freshKey =
      .ok (setKiosk db (hsKiosk k du av ip now freshKey),
           { kioskId := (hsKiosk k du av ip now freshKey).id
             storeId := (hsKiosk k du av ip now freshKey).storeId
             apiKey := (hsKiosk k du av ip now freshKey).apiKey
             kioskPassword := (hsKiosk k du av ip now freshKey).kioskPassword
             pairingCode := (hsKiosk k du av ip now freshKey).pairCode4
             configVersion := (hsKiosk k du av ip now freshKey).configVersion
             config := buildConfigDb (setKiosk db (hsKiosk k du av ip now freshKey))
               (hsKiosk k du av ip now freshKey) }) := by
  simp only [kiosk_handshake, hfind, hact, Bool.not_true, Bool.false_eq_true,
    if_false, update_handshake, hsKiosk]

/-- Core fields that one handshake leaves alone, and the key provisioning
rule: the key changes only when it was unset, and then to the fresh one. -/
lemma hsKiosk_fields (k : Kiosk) (du av : String) (ip : Option String)
    (now : Int) (freshKey : String) :
    (hsKiosk k du av ip now freshKey).id = k.id
  ∧ (hsKiosk k du av ip now freshKey).code = k.code
  ∧ (hsKiosk k du av ip now freshKey).storeId = k.storeId
  ∧ (hsKiosk k du av ip now freshKey).kioskPassword = k.kioskPassword
  ∧ (hsKiosk k du av ip now freshKey).pairCode4 = k.pairCode4
  ∧ (hsKiosk k du av ip now freshKey).configVersion = k.configVersion
  ∧ (hsKiosk k du av ip now freshKey).isActive = k.isActive
  ∧ (hsKiosk k du av ip now freshKey).deviceUuid = some du
  ∧ (hsKiosk k du av ip now freshKey).appVersion = some av
  ∧ (hsKiosk k du av ip now freshKey).lastIp = ip
  ∧ (hsKiosk k du av ip now freshKey).lastHeartbeatAt = some now
  ∧ (hsKiosk k du av ip now freshKey).apiKey =
      (if strFalsy k.apiKey then some freshKey else k.apiKey) := by
  unfold hsKiosk
  by_cases h : strFalsy k.apiKey = true
  · simp [h]
  · simp only [Bool.not_eq_true] at h
    simp [h]

/-- One call of a repeated-handshake sequence. -/
structure HsCall where
  deviceUuid : String
  appVersion : String
  ip : Option String
  now : Int
  freshKey : String
deriving Repr, DecidableEq

/-- Repeated handshakes against the same kiosk code; a rejected call
leaves the store unchanged. -/
def handshakeIter (code : String) : List HsCall → Db → Db
  | [], db => db
  | c :: rest, db =>
      match kiosk_handshake db code c.deviceUuid c.appVersion c.ip c.now
          c.freshKey with
      | .ok (db', _) => handshakeIter code rest db'
      | .error _ => handshakeIter code rest db

/-- Once the api key is set and non-empty, any number of further
handshakes keeps it unchanged. -/
lemma handshakeIter_key_stable (code : String) :
    ∀ (calls : List HsCall) (db : Db) (k : Kiosk),
      get_by_code db code = some k → k.isActive = true →
      strFalsy k.apiKey = false →
      ∃ k', get_by_code (handshakeIter code calls db) code = some k'
        ∧ k'.apiKey = k.apiKey := by
  intro calls
  induction calls with
  | nil =>
      intro db k hfind _ _
      exact ⟨k, hfind, rfl⟩
  | cons c rest ih =>
      intro db k hfind hact hkey
      have hf := hsKiosk_fields k c.deviceUuid c.appVersion c.ip c.now c.freshKey
      have hstep := kiosk_handshake_ok db code c.deviceUuid c.appVersion c.ip
        c.now c.freshKey k hfind hact
      have hcode : k.code = code := by simpa using List.find?_some hfind
      have hfind' : get_by_code (setKiosk db
          (hsKiosk k c.deviceUuid c.appVersion c.ip c.now c.freshKey)) code =
          some (hsKiosk k c.deviceUuid c.appVersion c.ip c.now c.freshKey) := by
        have := find?_code_setKiosk db.kiosks code k
          (hsKiosk k c.deviceUuid c.appVersion c.ip c.now c.freshKey)
          (by simpa [get_by_code] using hfind) hf.1 (hf.2.1.trans hcode)
        simpa [get_by_code, setKiosk] using this
      have hkey' : (hsKiosk k c.deviceUuid c.appVersion c.ip c.now c.freshKey).apiKey
          = k.apiKey := by
        rw [hf.2.2.2.2.2.2.2.2.2.2.2]
        simp [hkey]
      obtain ⟨k', h1, h2⟩ := ih
        (setKiosk db (hsKiosk k c.deviceUuid c.appVersion c.ip c.now c.freshKey))
        (hsKiosk k c.deviceUuid c.appVersion c.ip c.now c.freshKey)
        hfind'
        (hf.2.2.2.2.2.2.1.trans hact)
        (by rw [hkey']; exact hkey)
      refine ⟨k', ?_, h2.trans hkey'⟩
      have hIter : handshakeIter code (c :: rest) db =
          handshakeIter code rest
            (setKiosk db (hsKiosk k c.deviceUuid c.appVersion c.ip c.now c.freshKey)) := by
        simp [handshakeIter, hstep]
      rw [hIter]
      exact h1

/-- C6: handshake is rejected with the 403 NotAllowed failure when the
code is unknown or the kiosk inactive; otherwise it records device
identity, ip and liveness, provisions the api key only when none was set,
returns the freshly built config together with api key, kiosk password,
pairing code and current config version, and the key, once set non-empty,
survives any number of later handshakes. -/
theorem handshake_contract (db : Db) (code du av : String) (ip : Option String)
    (now : Int) (freshKey : String) :
    (get_by_code db code = none →
        kiosk_handshake db code du av ip now freshKey =
          .error ⟨403, "Kiosk not allowed"⟩)
  ∧ (∀ k, get_by_code db code = some k → k.isActive = false →
        kiosk_handshake db code du av ip now freshKey =
          .error ⟨403, "Kiosk not allowed"⟩)
  ∧ (∀ k, get_by_code db code = some k → k.isActive = true →
      ∃ db', kiosk_handshake db code du av ip now freshKey =
          .ok (db',
            { kioskId := k.id
              storeId := k.storeId
              apiKey := (if strFalsy k.apiKey then some freshKey else k.apiKey)
              kioskPassword := k.kioskPassword
              pairingCode := k.pairCode4
              configVersion := k.configVersion
              config := buildConfigDb db' (hsKiosk k du av ip now freshKey) })
        ∧ get_by_id db' k.id = some (hsKiosk k du av ip now freshKey)
        ∧ (hsKiosk k du av ip now freshKey).deviceUuid = some du
        ∧ (hsKiosk k du av ip now freshKey).appVersion = some av
        ∧ (hsKiosk k du av ip now freshKey).lastIp = ip
        ∧ (hsKiosk k du av ip now freshKey).lastHeartbeatAt = some now
        ∧ (strFalsy k.apiKey = false →
            (hsKiosk k du av ip now freshKey).apiKey = k.apiKey))
  ∧ (∀ k (calls : List HsCall), get_by_code db code = some k →
      k.isActive = true → strFalsy k.apiKey = false →
      ∃ k', get_by_code (handshakeIter code calls db) code = some k'
        ∧ k'.apiKey = k.apiKey) := by
  refine ⟨?_, ?_, ?_, ?_⟩
  · intro h
    simp [kiosk_handshake, h]
  · intro k hfind hact
    simp [kiosk_handshake, hfind, hact]
  · intro k hfind hact
    have hf := hsKiosk_fields k du av ip now freshKey
    have hstep := kiosk_handshake_ok db code du av ip now freshKey k hfind hact
    have hkid : k.code = code := by simpa using List.find?_some hfind
    refine ⟨setKiosk db (hsKiosk k du av ip now freshKey), ?_, ?_, hf.2.2.2.2.2.2.2.1,
      hf.2.2.2.2.2.2.2.2.1, hf.2.2.2.2.2.2.2.2.2.1, hf.2.2.2.2.2.2.2.2.2.2.1, ?_⟩
    · rw [hstep, hf.1, hf.2.2.1, hf.2.2.2.1, hf.2.2.2.2.1, hf.2.2.2.2.2.1,
        hf.2.2.2.2.2.2.2.2.2.2.2]
    · have hmem : ∃ x, x ∈ db.kiosks ∧ x.id = k.id :=
        ⟨k, List.mem_of_find?_eq_some hfind, rfl⟩
      have := find?_setKiosk db.kiosks k.id (hsKiosk k du av ip now freshKey)
        hf.1 hmem
      simpa [get_by_id, setKiosk] using this
    · intro hkey
      rw [hf.2.2.2.2.2.2.2.2.2.2.2]
      simp [hkey]
  · intro k calls hfind hact hkey
    exact handshakeIter_key_stable code calls db k hfind hact hkey

/-- Unprovisioned kiosk fixture: no api key yet. -/
def kNew : Kiosk :=
  { id := 2, storeId := 1, code := "K2", name := "Kiosk Two",
    kioskPassword := "pw2", pairCode4 := some "0777", configVersion := 1 }

/-- Store containing the unprovisioned kiosk. -/
def dbNew : Db :=
  { kiosks := [kNew], slots := [], links := [], kproducts := [],
    products := [], images := [] }

/-- C6 witness: first handshake on an unprovisioned kiosk hands out the
fresh key, the password, the pairing code and the version. -/
theorem handshake_contract_witness :
    ∃ db', kiosk_handshake dbNew "K2" "dev-1" "2.0" (some "10.0.0.5") 99 "FRESH" =
      .ok (db',
        { kioskId := 2
          storeId := 1
          apiKey := some "FRESH"
          kioskPassword := "pw2"
          pairingCode := some "0777"
          configVersion := 1
          config := buildConfigDb db'
            (hsKiosk kNew "dev-1" "2.0" (some "10.0.0.5") 99 "FRESH") }) := by
  obtain ⟨_, _, hmain, _⟩ :=
    handshake_contract dbNew "K2" "dev-1" "2.0" (some "10.0.0.5") 99 "FRESH"
  obtain ⟨db', hrun, -, -, -, -, -, -⟩ := hmain kNew (by decide) (by decide)
  exact ⟨db', hrun⟩

/- ===================== C7: config builder ===================== -/

/-- Lexicographic (row, col) order on slot entries, the order the spec
asserts for the built config. -/
def slotPairLe (a b : SlotConfig) : Prop :=
  a.row < b.row ∨ (a.row = b.row ∧ a.col ≤ b.col)

instance : DecidableRel slotPairLe := fun a b => by
  unfold slotPairLe; infer_instance

instance : IsTotal KioskScreenImage imgLe :=
  ⟨fun a b => Int.le_total (imgKey a) (imgKey b)⟩

instance : IsTrans KioskScreenImage imgLe :=
  ⟨fun _ _ _ hab hbc => le_trans hab hbc⟩

/-- Active screensaver rows, the sort input of `build_config`. -/
def activeImgs (imgs : List KioskScreenImage) : List KioskScreenImage :=
  imgs.filter (·.isActive)

/-- Join rows of the fixture kiosk in an order the database is free to
return: the reverse of storage order. -/
def rows7 : List JoinRow := (canonJoin db0 1).reverse

/-- C7 counterexample: the slot query of `build_config` has no ORDER BY,
so the slots of the produced config follow the database row order; on a
legitimate (reversed) row order the output is not ordered by (row, col). -/
theorem build_config_slots_not_sorted :
    rows7.Perm (canonJoin db0 1)
  ∧ ¬ (build_config k0 rows7 (kioskImages db0 1)).slots.Pairwise slotPairLe := by
  constructor
  · exact (canonJoin db0 1).reverse_perm
  · decide

/-- C7 amended: the built config carries one SlotConfig per join row in
the order the database returned them (the source query has no ordering
clause); every row without a binding or product snapshot yields all-null
product fields while keeping the slot geometry; and the screensaver list
is exactly the active images, ascending by sort order. -/
theorem build_config_contract (k : Kiosk) (rows : List JoinRow)
    (imgs : List KioskScreenImage) :
    (build_config k rows imgs).slots = rows.map slotConfigOfRow
  ∧ (∀ r : JoinRow, (r.vsp = none ∨ r.kp = none) →
      (slotConfigOfRow r).productId = none
      ∧ (slotConfigOfRow r).productName = none
      ∧ (slotConfigOfRow r).price = none
      ∧ (slotConfigOfRow r).isAdultOnly = none
      ∧ (slotConfigOfRow r).imageUrl = none
      ∧ (slotConfigOfRow r).detailImageUrl = none
      ∧ (slotConfigOfRow r).categoryCode = none
      ∧ (slotConfigOfRow r).categoryName = none
      ∧ (slotConfigOfRow r).slotId = r.slot.id)
  ∧ (∃ l : List KioskScreenImage,
        (build_config k rows imgs).screensaverImages = l.map (·.imageUrl)
      ∧ l.Pairwise imgLe
      ∧ l.Perm (activeImgs imgs)) := by
  refine ⟨rfl, ?_, ?_⟩
  · rintro ⟨slot, vsp, kp⟩ h
    cases vsp with
    | none => cases kp <;> simp [slotConfigOfRow]
    | some v =>
        cases kp with
        | none => simp [slotConfigOfRow]
        | some p => simp at h
  · exact ⟨(activeImgs imgs).insertionSort imgLe, rfl,
      List.sorted_insertionSort imgLe (activeImgs imgs),
      List.perm_insertionSort imgLe (activeImgs imgs)⟩

/-- C7 witness: the amended contract instantiated on the fixture, with the
unbound-slot hypothesis discharged on slot B01. -/
theorem build_config_contract_witness :
    (build_config k0 rows7 (kioskImages db0 1)).slots = rows7.map slotConfigOfRow
  ∧ (slotConfigOfRow ⟨s13, none, none⟩).productId = none := by
  have h := build_config_contract k0 rows7 (kioskImages db0 1)
  exact ⟨h.1, (h.2.1 ⟨s13, none, none⟩ (Or.inl rfl)).1⟩

/- ===================== C1: config-version invalidation ===================== -/

/-- Server time stamped by an admin mutation. -/
def AdminOp.now : AdminOp → Int
  | .slotClear _ _ n => n
  | .slotAssign _ _ _ _ _ _ n _ => n
  | .screensaverUpload _ _ n _ => n
  | .screensaverDelete _ _ n => n
  | .productEdit _ _ _ n => n

/-- Committing a bumped target kiosk row: the observed kiosk is bumped
exactly when it is the target, untouched otherwise. `dbX` is the store
mid-transaction whose kiosk table is still the original one. -/
lemma lookup_after_bump (db dbX : Db) (hke : dbX.kiosks = db.kiosks)
    (kid tid : Nat) (k k2 : Kiosk) (now : Int)
    (h : get_by_id db kid = some k) (hk : get_by_id db tid = some k2) :
    get_by_id (setKiosk dbX (bumpKiosk k2 now)) kid =
      some (if tid = kid then bumpKiosk k now else k) := by
  by_cases he : tid = kid
  · subst he
    have hk2 : k2 = k := by
      rw [h] at hk
      exact (Option.some.inj hk).symm
    subst hk2
    have hkid : k2.id = tid := by simpa using List.find?_some h
    have hmem : ∃ x, x ∈ db.kiosks ∧ x.id = tid :=
      ⟨k2, List.mem_of_find?_eq_some h, hkid⟩
    have hset := find?_setKiosk db.kiosks tid (bumpKiosk k2 now)
      (by simpa [bumpKiosk] using hkid) hmem
    rw [if_pos rfl]
    show ((setKiosk dbX (bumpKiosk k2 now)).kiosks.find? fun x => x.id = tid)
      = some (bumpKiosk k2 now)
    rw [setKiosk]
    simp only [hke]
    exact hset
  · have hk2id : k2.id = tid := by simpa using List.find?_some hk
    have hne : (bumpKiosk k2 now).id ≠ kid := by
      simpa [bumpKiosk, hk2id] using he
    have hoth := find?_setKiosk_other db.kiosks kid (bumpKiosk k2 now) hne
    rw [if_neg he]
    show ((setKiosk dbX (bumpKiosk k2 now)).kiosks.find? fun x => x.id = kid)
      = some k
    rw [setKiosk]
    simp only [hke]
    rw [hoth]
    exact h

/-- Lookup effect of a slot clear. -/
lemma kiosk_slot_clear_spec (tid sid : Nat) (now : Int) (db : Db) (kid : Nat)
    (k : Kiosk) (h : get_by_id db kid = some k) :
    get_by_id (kiosk_slot_clear db tid sid now).1 kid =
      some (if (kiosk_slot_clear db tid sid now).2 = true ∧ tid = kid
            then bumpKiosk k now else k) := by
  unfold kiosk_slot_clear
  cases hk2 : get_by_id db tid with
  | none => simp [h]
  | some k2 =>
      cases hs : db.slots.find? (·.id = sid) with
      | none => simp [h]
      | some slot =>
          dsimp only
          by_cases hown : slot.kioskId ≠ tid
          · simp [hown, h]
          · rw [if_neg hown]
            have := lookup_after_bump db
              { db with
                links := db.links.filter (fun l => !(l.slotId = sid)),
                slots := db.slots.map fun s =>
                  if s.id = sid then { s with maxCapacity := 0 } else s }
              rfl kid tid k k2 now h hk2
            simpa using this

/-- Lookup effect of a slot assignment. -/
lemma kiosk_slot_assign_spec (tid sid pid : Nat) (mc cs la : Int) (now : Int)
    (fkp : Nat) (db : Db) (kid : Nat) (k : Kiosk)
    (h : get_by_id db kid = some k) :
    get_by_id (kiosk_slot_assign db tid sid pid mc cs la now fkp).1 kid =
      some (if (kiosk_slot_assign db tid sid pid mc cs la now fkp).2 = true ∧ tid = kid
            then bumpKiosk k now else k) := by
  unfold kiosk_slot_assign
  cases hk2 : get_by_id db tid with
  | none => simp [h]
  | some k2 =>
      cases hs : db.slots.find? (·.id = sid) with
      | none => simp [h]
      | some slot =>
          dsimp only
          by_cases hown : slot.kioskId ≠ tid
          · simp [hown, h]
          · cases hp : db.products.find? (·.id = pid) with
            | none => simp [hown, hp, h]
            | some bp =>
                dsimp only
                rw [if_neg hown]
                have key : ∀ dbX : Db, dbX.kiosks = db.kiosks →
                    get_by_id (setKiosk dbX (bumpKiosk k2 now)) kid
                      = some (if tid = kid then bumpKiosk k now else k) :=
                  fun dbX hke => lookup_after_bump db dbX hke kid tid k k2 now h hk2
                dsimp only
                split <;> split <;> simpa using key _ rfl

/-- Lookup effect of a screensaver upload. -/
lemma kiosk_screensaver_upload_spec (tid : Nat) (url : String) (now : Int)
    (fid : Nat) (db : Db) (kid : Nat) (k : Kiosk)
    (h : get_by_id db kid = some k) :
    get_by_id (kiosk_screensaver_upload db tid url now fid).1 kid =
      some (if (kiosk_screensaver_upload db tid url now fid).2 = true ∧ tid = kid
            then bumpKiosk k now else k) := by
  unfold kiosk_screensaver_upload
  cases hk2 : get_by_id db tid with
  | none => simp [h]
  | some k2 =>
      simp only []
      have := lookup_after_bump db _ rfl kid tid k k2 now h hk2
      simpa using this

/-- Lookup effect of a screensaver delete. -/
lemma kiosk_screensaver_delete_spec (tid iid : Nat) (now : Int) (db : Db)
    (kid : Nat) (k : Kiosk) (h : get_by_id db kid = some k) :
    get_by_id (kiosk_screensaver_delete db tid iid now).1 kid =
      some (if (kiosk_screensaver_delete db tid iid now).2 = true ∧ tid = kid
            then bumpKiosk k now else k) := by
  unfold kiosk_screensaver_delete
  cases hk2 : get_by_id db tid with
  | none => simp [h]
  | some k2 =>
      cases hi : db.images.find? fun i => i.id = iid && i.kioskId = tid with
      | none => simp [hi, h]
      | some img =>
          simp only [hi]
          have := lookup_after_bump db _ rfl kid tid k k2 now h hk2
          simpa using this

/-- Lookup effect of a kiosk-product edit. -/
lemma kiosk_product_edit_spec (tid kpid : Nat) (e : KpEdit) (now : Int)
    (db : Db) (kid : Nat) (k : Kiosk) (h : get_by_id db kid = some k) :
    get_by_id (kiosk_product_edit db tid kpid e now).1 kid =
      some (if (kiosk_product_edit db tid kpid e now).2 = true ∧ tid = kid
            then bumpKiosk k now else k) := by
  unfold kiosk_product_edit
  cases hk2 : get_by_id db tid with
  | none => simp [h]
  | some k2 =>
      cases hkp : db.kproducts.find? (·.id = kpid) with
      | none => simp [hkp, h]
      | some kp =>
          by_cases hown : kp.kioskId ≠ tid
          · simp [hkp, hown, h]
          · simp only [hkp, hown, not_true_eq_false, if_false, ite_false]
            have := lookup_after_bump db _ rfl kid tid k k2 now h hk2
            simpa using this

/-- Lookup effect of any admin mutation: the observed kiosk is bumped
exactly when the mutation ran and addressed it. -/
lemma adminStep_spec (op : AdminOp) (db : Db) (kid : Nat) (k : Kiosk)
    (h : get_by_id db kid = some k) :
    get_by_id (adminStep op db).1 kid =
      some (if (adminStep op db).2 = true ∧ op.kioskId = kid
            then bumpKiosk k op.now else k) := by
  cases op with
  | slotClear tid sid now => exact kiosk_slot_clear_spec tid sid now db kid k h
  | slotAssign tid sid pid mc cs la now fkp =>
      exact kiosk_slot_assign_spec tid sid pid mc cs la now fkp db kid k h
  | screensaverUpload tid url now fid =>
      exact kiosk_screensaver_upload_spec tid url now fid db kid k h
  | screensaverDelete tid iid now =>
      exact kiosk_screensaver_delete_spec tid iid now db kid k h
  | productEdit tid kpid e now =>
      exact kiosk_product_edit_spec tid kpid e now db kid k h

/-- C1: across any sequence of admin requests, the observed kiosk's
`config_version` ends exactly at its start value plus the number of
requests that actually performed a config-affecting mutation on it — each
such transaction increments by exactly 1 (the bump and the data change are
one committed step of the model), so the version is strictly increasing
along the mutations, never skipping and never decreasing. -/
theorem config_version_bump_contract (ops : List AdminOp) (db : Db)
    (kid : Nat) (k : Kiosk) (h : get_by_id db kid = some k) :
    ∃ k', get_by_id (adminRunCount kid ops db).1 kid = some k'
      ∧ k'.configVersion = k.configVersion + (adminRunCount kid ops db).2 := by
  induction ops generalizing db k with
  | nil => exact ⟨k, h, by simp [adminRunCount]⟩
  | cons op ops ih =>
      have hstep := adminStep_spec op db kid k h
      rcases hab : adminStep op db with ⟨db1, b⟩
      rw [hab] at hstep
      simp only at hstep
      obtain ⟨k', h1, h2⟩ := ih db1 _ hstep
      have hrun : adminRunCount kid (op :: ops) db =
          ((adminRunCount kid ops db1).1,
           (if b && op.kioskId = kid then 1 else 0) + (adminRunCount kid ops db1).2) := by
        simp [adminRunCount, hab]
      refine ⟨k', ?_, ?_⟩
      · rw [hrun]
        exact h1
      · rw [hrun, h2]
        have hbump : (bumpKiosk k op.now).configVersion = k.configVersion + 1 := by
          simp [bumpKiosk, intOr_zero_add_one]
        by_cases hkk : op.kioskId = kid
        · cases b with
          | false =>
              rw [if_neg (by simp : ¬ ((false = true) ∧ op.kioskId = kid))]
              have hb2 : (false && decide (op.kioskId = kid)) = false := by simp
              rw [hb2, if_neg (by simp : ¬ (false = true))]
              omega
          | true =>
              rw [if_pos ⟨rfl, hkk⟩, hbump]
              have hb2 : (true && decide (op.kioskId = kid)) = true := by
                simp [hkk]
              rw [hb2, if_pos rfl]
              omega
        · have h1 : ¬ ((b = true) ∧ op.kioskId = kid) := fun hc => hkk hc.2
          have hb2 : (b && decide (op.kioskId = kid)) = false := by simp [hkk]
          rw [if_neg h1, hb2, if_neg (by simp : ¬ (false = true))]
          omega

/-- Edit fixture for the product-edit mutation. -/
def e0 : KpEdit := { name := "Prod+", price := 1200 }

/-- Admin request sequence fixture: four mutations that run (clear,
upload, edit, assign) and one that does not (deleting a missing image). -/
def ops0 : List AdminOp :=
  [ .slotClear 1 11 100,
    .screensaverUpload 1 "u9" 101 99,
    .productEdit 1 21 e0 102,
    .slotAssign 1 13 31 5 5 1 103 77,
    .screensaverDelete 1 999 104 ]

/-- C1 witness: the contract applied to the fixture store and sequence. -/
theorem config_version_bump_contract_witness :
    ∃ k', get_by_id (adminRunCount 1 ops0 db0).1 1 = some k'
      ∧ k'.configVersion = k0.configVersion + (adminRunCount 1 ops0 db0).2 :=
  config_version_bump_contract ops0 db0 1 k0 (by decide)

/- ===================== C5 and C10: inventory synchronization ===================== -/

/-- Ownership test of the partial-mode service: the slot exists and
belongs to the addressed kiosk. -/
def slotOwnedB (db : Db) (kid sid : Nat) : Bool :=
  (db.slots.find? fun s => s.id = sid && s.kioskId = kid).isSome

/-- Binding test of the partial-mode service: the slot has a bound
product. -/
def slotBoundB (db : Db) (sid : Nat) : Bool :=
  (db.links.find? (·.slotId = sid)).isSome

/-- Effect of one submitted item on one binding row: the clamped write
when the item addresses this row's slot and that slot is owned and bound,
identity otherwise. -/
def partItemF (db : Db) (kid : Nat) (i : InventoryItem)
    (l : VendingSlotProduct) : VendingSlotProduct :=
  if l.slotId = i.slotId && slotOwnedB db kid i.slotId && slotBoundB db i.slotId
  then applyInvItem i.currentStock i.lowStockAlarm l else l

/-- Cumulative effect of a partial update on one binding row. -/
def chainApply (db : Db) (kid : Nat) (items : List InventoryItem)
    (l : VendingSlotProduct) : VendingSlotProduct :=
  items.foldl (fun l i => partItemF db kid i l) l

/-- Effect of one replace-mode row on one binding row. -/
def replRowF (items : List InventoryItem)
    (row : VendingSlot × Option VendingSlotProduct)
    (l : VendingSlotProduct) : VendingSlotProduct :=
  match row.2 with
  | none => l
  | some _ =>
      match payloadLookup items row.1.id with
      | some p =>
          if l.slotId = row.1.id then
            applyInvItem p.currentStock p.lowStockAlarm l
          else l
      | none =>
          if l.slotId = row.1.id then { l with currentStock := 0 } else l

/-- Cumulative effect of a replace update on one binding row. -/
def rowsChain (items : List InventoryItem)
    (rows : List (VendingSlot × Option VendingSlotProduct))
    (l : VendingSlotProduct) : VendingSlotProduct :=
  rows.foldl (fun l row => replRowF items row l) l

/-- Binding-presence is insensitive to slot-id-preserving rewrites of the
binding table. -/
lemma find?_map_slotId (links : List VendingSlotProduct)
    (g : VendingSlotProduct → VendingSlotProduct)
    (hg : ∀ l, (g l).slotId = l.slotId) (sid : Nat) :
    ((links.map g).find? (·.slotId = sid)).isSome
      = (links.find? (·.slotId = sid)).isSome := by
  have hp : ((fun x : VendingSlotProduct => decide (x.slotId = sid)) ∘ g)
      = fun x : VendingSlotProduct => decide (x.slotId = sid) := by
    funext l
    simp [Function.comp, hg]
  rw [List.find?_map, hp]
  cases links.find? fun x : VendingSlotProduct => decide (x.slotId = sid) <;> rfl

/-- Core fold invariant of the partial update: slots and kiosks untouched,
binding presence preserved, bindings rewritten by the cumulative per-item
effect, and the counters offset by the owned-and-bound item counts. The
running store `dbc` only needs the original slot table and binding
presence. -/
lemma update_part_core (db : Db) (kid : Nat) :
    ∀ (items : List InventoryItem) (dbc : Db) (u0 s0 : Nat),
      dbc.slots = db.slots →
      (∀ sid, slotBoundB dbc sid = slotBoundB db sid) →
      (items.foldl (partStep kid) (dbc, u0, s0)).1.slots = dbc.slots
      ∧ (items.foldl (partStep kid) (dbc, u0, s0)).1.kiosks = dbc.kiosks
      ∧ (items.foldl (partStep kid) (dbc, u0, s0)).1.links
          = dbc.links.map (chainApply db kid items)
      ∧ (items.foldl (partStep kid) (dbc, u0, s0)).2.1
          = u0 + (items.filter fun i =>
              slotOwnedB db kid i.slotId && slotBoundB db i.slotId).length
      ∧ (items.foldl (partStep kid) (dbc, u0, s0)).2.2
          = s0 + (items.filter fun i =>
              !(slotOwnedB db kid i.slotId && slotBoundB db i.slotId)).length := by
  intro items
  induction items with
  | nil =>
      intro dbc u0 s0 hs hb
      refine ⟨rfl, rfl, ?_, rfl, rfl⟩
      rw [show chainApply db kid [] = fun l => l from rfl]
      simp
  | cons i items ih =>
      intro dbc u0 s0 hs hb
      by_cases hO : slotOwnedB db kid i.slotId = true
      · by_cases hB : slotBoundB db i.slotId = true
        · -- the item is processed: owned and bound
          have hOc : (dbc.slots.find? fun s =>
              s.id = i.slotId && s.kioskId = kid).isSome = true := by
            rw [hs]
            exact hO
          obtain ⟨sfound, hsfound⟩ := Option.isSome_iff_exists.mp hOc
          have hBc : (dbc.links.find? fun l =>
              l.slotId = i.slotId).isSome = true := by
            have h1 : slotBoundB dbc i.slotId = true := by rw [hb]; exact hB
            exact h1
          obtain ⟨lfound, hlfound⟩ := Option.isSome_iff_exists.mp hBc
          have hstep : partStep kid (dbc, u0, s0) i =
              ({ dbc with links := dbc.links.map fun l =>
                  if l.slotId = i.slotId then
                    applyInvItem i.currentStock i.lowStockAlarm l
                  else l },
               u0 + 1, s0) := by
            simp [partStep, set_slot_stock, hsfound, hlfound]
          have hupd : ∀ l : VendingSlotProduct,
              ((if l.slotId = i.slotId then
                  applyInvItem i.currentStock i.lowStockAlarm l
                else l) : VendingSlotProduct).slotId = l.slotId := by
            intro l
            by_cases he : l.slotId = i.slotId <;>
              cases hla : i.lowStockAlarm <;> simp [he, applyInvItem, hla]
          obtain ⟨ih1, ih2, ih3, ih4, ih5⟩ := ih
            ({ dbc with links := dbc.links.map fun l =>
                if l.slotId = i.slotId then
                  applyInvItem i.currentStock i.lowStockAlarm l
                else l })
            (u0 + 1) s0 hs
            (fun sid => by
              have := find?_map_slotId dbc.links _ hupd sid
              show ((dbc.links.map _).find? _).isSome = _
              rw [this]
              exact hb sid)
          rw [List.foldl_cons, hstep]
          refine ⟨ih1, ih2, ?_, ?_, ?_⟩
          · rw [ih3]
            simp only [List.map_map]
            apply List.map_congr_left
            intro l _
            show chainApply db kid items _ = chainApply db kid items (partItemF db kid i l)
            congr 1
            simp [partItemF, hO, hB]
          · rw [ih4]
            simp only [List.filter_cons, hO, hB, Bool.and_self, if_true,
              List.length_cons]
            omega
          · rw [ih5]
            simp only [List.filter_cons, hO, hB, Bool.and_self,
              Bool.not_true, Bool.false_eq_true, if_false]
        · -- bound check fails: skipped, store untouched
          have hBf : slotBoundB db i.slotId = false := by
            simpa using hB
          have hlnone : dbc.links.find? (fun l => l.slotId = i.slotId) = none := by
            refine Option.not_isSome_iff_eq_none.mp ?_
            intro hcon
            have h1 : slotBoundB dbc i.slotId = true := hcon
            rw [hb, hBf] at h1
            cases h1
          have hstep : partStep kid (dbc, u0, s0) i = (dbc, u0, s0 + 1) := by
            cases hsf : dbc.slots.find? fun s => s.id = i.slotId && s.kioskId = kid with
            | none => simp [partStep, set_slot_stock, hsf]
            | some sl => simp [partStep, set_slot_stock, hsf, hlnone]
          obtain ⟨ih1, ih2, ih3, ih4, ih5⟩ := ih dbc u0 (s0 + 1) hs hb
          rw [List.foldl_cons, hstep]
          refine ⟨ih1, ih2, ?_, ?_, ?_⟩
          · rw [ih3]
            apply List.map_congr_left
            intro l _
            show chainApply db kid items l = chainApply db kid items (partItemF db kid i l)
            congr 1
            simp [partItemF, hBf]
          · rw [ih4]
            simp only [List.filter_cons, hBf, Bool.and_false,
              Bool.false_eq_true, if_false]
          · rw [ih5]
            simp only [List.filter_cons, hBf, Bool.and_false, Bool.not_false,
              if_true, List.length_cons]
            omega
      · -- ownership check fails: skipped, store untouched
        have hOf : slotOwnedB db kid i.slotId = false := by
          simpa using hO
        have hsnone : dbc.slots.find? (fun s => s.id = i.slotId && s.kioskId = kid)
            = none := by
          rw [hs]
          refine Option.not_isSome_iff_eq_none.mp ?_
          intro hcon
          have h1 : slotOwnedB db kid i.slotId = true := hcon
          rw [hOf] at h1
          cases h1
        have hstep : partStep kid (dbc, u0, s0) i = (dbc, u0, s0 + 1) := by
          simp [partStep, set_slot_stock, hsnone]
        obtain ⟨ih1, ih2, ih3, ih4, ih5⟩ := ih dbc u0 (s0 + 1) hs hb
        rw [List.foldl_cons, hstep]
        refine ⟨ih1, ih2, ?_, ?_, ?_⟩
        · rw [ih3]
          apply List.map_congr_left
          intro l _
          show chainApply db kid items l = chainApply db kid items (partItemF db kid i l)
          congr 1
          simp [partItemF, hOf]
        · rw [ih4]
          simp only [List.filter_cons, hOf, Bool.false_and,
            Bool.false_eq_true, if_false]
        · rw [ih5]
          simp only [List.filter_cons, hOf, Bool.false_and, Bool.not_false,
            if_true, List.length_cons]
          omega

/-- Core fold invariant of the replace update: bindings rewritten by the
cumulative per-row effect, slots and kiosks untouched, updated counting
the bound rows and skipped the unbound ones. -/
lemma update_replace_core (items : List InventoryItem) :
    ∀ (rows : List (VendingSlot × Option VendingSlotProduct)) (dbc : Db)
      (u0 s0 : Nat),
      (rows.foldl (replaceStep items) (dbc, u0, s0)).1.links
        = dbc.links.map (rowsChain items rows)
      ∧ (rows.foldl (replaceStep items) (dbc, u0, s0)).1.slots = dbc.slots
      ∧ (rows.foldl (replaceStep items) (dbc, u0, s0)).1.kiosks = dbc.kiosks
      ∧ (rows.foldl (replaceStep items) (dbc, u0, s0)).2.1
          = u0 + (rows.filter fun r => r.2.isSome).length
      ∧ (rows.foldl (replaceStep items) (dbc, u0, s0)).2.2
          = s0 + (rows.filter fun r => r.2.isNone).length := by
  intro rows
  induction rows with
  | nil =>
      intro dbc u0 s0
      refine ⟨?_, rfl, rfl, rfl, rfl⟩
      rw [show rowsChain items [] = fun l => l from rfl]
      simp
  | cons row rows ih =>
      intro dbc u0 s0
      cases hr : row.2 with
      | none =>
          have hstep : replaceStep items (dbc, u0, s0) row = (dbc, u0, s0 + 1) := by
            simp [replaceStep, hr]
          obtain ⟨ih1, ih2, ih3, ih4, ih5⟩ := ih dbc u0 (s0 + 1)
          rw [List.foldl_cons, hstep]
          refine ⟨?_, ih2, ih3, ?_, ?_⟩
          · rw [ih1]
            apply List.map_congr_left
            intro l _
            show rowsChain items rows l = rowsChain items rows (replRowF items row l)
            congr 1
            simp [replRowF, hr]
          · rw [ih4]
            simp [List.filter_cons, hr]
          · rw [ih5]
            simp [List.filter_cons, hr]
            omega
      | some link =>
          cases hp : payloadLookup items row.1.id with
          | some p =>
              have hstep : replaceStep items (dbc, u0, s0) row =
                  ({ dbc with links := dbc.links.map fun l =>
                      if l.slotId = row.1.id then
                        applyInvItem p.currentStock p.lowStockAlarm l
                      else l },
                   u0 + 1, s0) := by
                simp [replaceStep, hr, hp]
              obtain ⟨ih1, ih2, ih3, ih4, ih5⟩ := ih
                ({ dbc with links := dbc.links.map fun l =>
                    if l.slotId = row.1.id then
                      applyInvItem p.currentStock p.lowStockAlarm l
                    else l })
                (u0 + 1) s0
              rw [List.foldl_cons, hstep]
              refine ⟨?_, ih2, ih3, ?_, ?_⟩
              · rw [ih1]
                simp only [List.map_map]
                apply List.map_congr_left
                intro l _
                show rowsChain items rows _
                  = rowsChain items rows (replRowF items row l)
                congr 1
                simp [replRowF, hr, hp]
              · rw [ih4]
                simp [List.filter_cons, hr]
                omega
              · rw [ih5]
                simp [List.filter_cons, hr]
          | none =>
              have hstep : replaceStep items (dbc, u0, s0) row =
                  ({ dbc with links := dbc.links.map fun l =>
                      if l.slotId = row.1.id then { l with currentStock := 0 }
                      else l },
                   u0 + 1, s0) := by
                simp [replaceStep, hr, hp]
              obtain ⟨ih1, ih2, ih3, ih4, ih5⟩ := ih
                ({ dbc with links := dbc.links.map fun l =>
                    if l.slotId = row.1.id then { l with currentStock := 0 }
                    else l })
                (u0 + 1) s0
              rw [List.foldl_cons, hstep]
              refine ⟨?_, ih2, ih3, ?_, ?_⟩
              · rw [ih1]
                simp only [List.map_map]
                apply List.map_congr_left
                intro l _
                show rowsChain items rows _
                  = rowsChain items rows (replRowF items row l)
                congr 1
                simp [replRowF, hr, hp]
              · rw [ih4]
                simp [List.filter_cons, hr]
                omega
              · rw [ih5]
                simp [List.filter_cons, hr]

/-- A dictionary lookup built from only the surviving items agrees with
the full one on every key the filter keeps. -/
lemma payloadLookup_filter (sid : Nat) (p : InventoryItem → Bool)
    (hp : ∀ i : InventoryItem, i.slotId = sid → p i = true) :
    ∀ (items : List InventoryItem) (acc : Option InventoryItem),
      (items.filter p).foldl
          (fun acc i => if i.slotId = sid then some i else acc) acc
        = items.foldl (fun acc i => if i.slotId = sid then some i else acc) acc := by
  intro items
  induction items with
  | nil => intro acc; rfl
  | cons i items ih =>
      intro acc
      by_cases hpi : p i = true
      · simp only [List.filter_cons, hpi, if_true, List.foldl_cons]
        exact ih _
      · have hne : ¬ i.slotId = sid := fun hh => hpi (hp i hh)
        simp only [List.filter_cons, hpi, Bool.false_eq_true, if_false,
          List.foldl_cons, hne]
        exact ih acc

/-- Bound and unbound rows partition the row set. -/
lemma length_filter_isSome_add
    (rows : List (VendingSlot × Option VendingSlotProduct)) :
    (rows.filter fun r => r.2.isSome).length
      + (rows.filter fun r => r.2.isNone).length = rows.length := by
  induction rows with
  | nil => rfl
  | cons r rows ih =>
      cases hr : r.2 <;> simp [List.filter_cons, hr] <;> omega

/-- A member satisfying a search predicate makes the search succeed. -/
lemma find?_isSome_of_mem {α : Type} (l : List α) (p : α → Bool) (a : α)
    (ha : a ∈ l) (hpa : p a = true) : (l.find? p).isSome = true := by
  induction l with
  | nil => cases ha
  | cons b l ih =>
      cases hb : p b with
      | false =>
          rcases List.mem_cons.mp ha with h | h
          · subst h
            rw [hpa] at hb
            cases hb
          · simp [List.find?, hb, ih h]
      | true => simp [List.find?, hb]

/-- A binding row mentioned by no submitted item is left untouched by the
cumulative partial-update effect. -/
lemma chainApply_not_mentioned (db : Db) (kid : Nat) :
    ∀ (items : List InventoryItem) (l : VendingSlotProduct),
      (∀ i ∈ items, i.slotId ≠ l.slotId) → chainApply db kid items l = l := by
  intro items
  induction items with
  | nil => intro l _; rfl
  | cons i items ih =>
      intro l hl
      have hi : i.slotId ≠ l.slotId := hl i (List.mem_cons_self i items)
      have hstep : partItemF db kid i l = l := by
        have hne : ¬ l.slotId = i.slotId := fun h => hi h.symm
        simp [partItemF, hne]
      show chainApply db kid items (partItemF db kid i l) = l
      rw [hstep]
      exact ih l fun j hj => hl j (List.mem_cons_of_mem _ hj)

/-- C5: in partial mode exactly the submitted items are processed — the
final binding table is the original one rewritten by the cumulative
per-item effect (clamped stock, optional clamped alarm, only for owned and
bound slots; unmentioned rows untouched), updated counts the submitted
owned-and-bound items and skipped the rest; in replace mode every bound
row is written (clamped submitted value when mentioned, zero otherwise)
and counted updated while unbound rows are skipped; and the authenticated
endpoint reports exactly `{ok, updated, skipped, mode}` of the selected
mode. -/
theorem inventory_update_contract (db : Db) (kid : Nat)
    (items : List InventoryItem) :
    ((update_inventory_part db kid items).1.links
        = db.links.map (chainApply db kid items)
      ∧ (update_inventory_part db kid items).1.slots = db.slots
      ∧ (update_inventory_part db kid items).1.kiosks = db.kiosks
      ∧ (update_inventory_part db kid items).2.1
          = (items.filter fun i =>
              slotOwnedB db kid i.slotId && slotBoundB db i.slotId).length
      ∧ (update_inventory_part db kid items).2.2
          = (items.filter fun i =>
              !(slotOwnedB db kid i.slotId && slotBoundB db i.slotId)).length
      ∧ (∀ l : VendingSlotProduct, (∀ i ∈ items, i.slotId ≠ l.slotId) →
            chainApply db kid items l = l))
  ∧ ((update_inventory_replace db kid items).1.links
        = db.links.map (rowsChain items (replaceRows db kid))
      ∧ (update_inventory_replace db kid items).1.slots = db.slots
      ∧ (update_inventory_replace db kid items).1.kiosks = db.kiosks
      ∧ (update_inventory_replace db kid items).2.1
          = ((replaceRows db kid).filter fun r => r.2.isSome).length
      ∧ (update_inventory_replace db kid items).2.2
          = ((replaceRows db kid).filter fun r => r.2.isNone).length)
  ∧ (∀ (k : Kiosk) (header : Option String) (mode : String),
      get_by_id db kid = some k → k.isActive = true →
      apiKeyRejected k header = false →
      kiosk_inventory_update db kid header mode items =
        .ok ((if mode = "replace" then update_inventory_replace db kid items
              else update_inventory_part db kid items).1,
             { ok := true
               updated := (if mode = "replace" then
                   update_inventory_replace db kid items
                 else update_inventory_part db kid items).2.1
               skipped := (if mode = "replace" then
                   update_inventory_replace db kid items
                 else update_inventory_part db kid items).2.2
               mode := mode })) := by
  refine ⟨?_, ?_, ?_⟩
  · obtain ⟨h1, h2, h3, h4, h5⟩ :=
      update_part_core db kid items db 0 0 rfl fun _ => rfl
    unfold update_inventory_part
    exact ⟨h3, h1, h2, by rw [h4]; simp, by rw [h5]; simp,
      chainApply_not_mentioned db kid items⟩
  · obtain ⟨h1, h2, h3, h4, h5⟩ :=
      update_replace_core items (replaceRows db kid) db 0 0
    unfold update_inventory_replace
    exact ⟨h1, h2, h3, by rw [h4]; simp, by rw [h5]; simp⟩
  · intro k header mode hfind hact hauth
    rcases hres : (if mode = "replace" then update_inventory_replace db kid items
        else update_inventory_part db kid items) with ⟨db', u, s⟩
    simp [kiosk_inventory_update, hfind, hact, hauth, hres]

/-- Submitted inventory item fixture: slot A01 restocked to 9. -/
def item9 : InventoryItem := ⟨11, 9, none⟩

/-- C5 witness: the endpoint contract on the fixture store in partial
mode, with the §8 counts updated=1, skipped=0. -/
theorem inventory_update_contract_witness :
    kiosk_inventory_update db0 1 (some "KEY") "partial" [item9] =
      .ok ((update_inventory_part db0 1 [item9]).1,
           { ok := true
             updated := (update_inventory_part db0 1 [item9]).2.1
             skipped := (update_inventory_part db0 1 [item9]).2.2
             mode := "partial" })
  ∧ (update_inventory_part db0 1 [item9]).2.1 = 1
  ∧ (update_inventory_part db0 1 [item9]).2.2 = 0 := by
  have h := (inventory_update_contract db0 1 [item9]).2.2 k0 (some "KEY")
    "partial" (by decide) (by decide) (by decide)
  rw [if_neg (by decide : ¬ ("partial" = "replace"))] at h
  exact ⟨h, by decide, by decide⟩

/-- C10: in replace mode an item whose slot does not belong to the
addressed kiosk is silently ignored — the whole result (final store and
both counters) is the same as if the foreign items had been filtered out —
and updated + skipped always equals the number of the kiosk's own slot
rows. -/
theorem replace_ignores_foreign_items (db : Db) (kid : Nat)
    (items : List InventoryItem) :
    update_inventory_replace db kid items
      = update_inventory_replace db kid
          (items.filter fun i => slotOwnedB db kid i.slotId)
  ∧ (update_inventory_replace db kid items).2.1
      + (update_inventory_replace db kid items).2.2
      = (replaceRows db kid).length := by
  constructor
  · unfold update_inventory_replace
    apply List.foldl_ext
    intro acc row hrow
    obtain ⟨s, hsmem, rfl⟩ := List.mem_map.mp hrow
    have hsfil := List.mem_filter.mp hsmem
    have howned : slotOwnedB db kid s.id = true := by
      refine find?_isSome_of_mem db.slots _ s hsfil.1 ?_
      have hk := of_decide_eq_true hsfil.2
      simp [hk]
    have hpl : payloadLookup (items.filter fun i => slotOwnedB db kid i.slotId) s.id
        = payloadLookup items s.id := by
      unfold payloadLookup
      exact payloadLookup_filter s.id _ (fun i hi => by rw [hi]; exact howned)
        items none
    unfold replaceStep
    dsimp only
    rw [hpl]
  · obtain ⟨-, -, -, h4, h5⟩ :=
      update_replace_core items (replaceRows db kid) db 0 0
    unfold update_inventory_replace
    rw [h4, h5]
    simp only [Nat.zero_add]
    exact length_filter_isSome_add (replaceRows db kid)

end WCD
